import Mathlib

/-!
Verification of the EDC clinical data compliance validator.

Shallow embedding of the SDTM-like domain validators
(src/edc_validator/domain_validation.py), the superseded prototype
DM validator (src/edc_validator/sdtm_rules.py), the DM anchoring
check (src/edc_validator/run_validator.py, duplicated in
domain_validation.py) and the findings aggregation of
src/io/datasets_json.py (DatasetJsonIO).

Modelling choices, stated once:
- A polars DataFrame is a list of column names plus a list of rows;
  a row is an association list from column name to cell value.
  Tables are modelled without a pre-existing row_index column, so
  with_row_index always enumerates positions (the pipeline feeds
  read_csv tables, which have no such column).
- Cell values are null, a string, or an integer; casting to Utf8
  (strict=False) maps null to null, a string to itself and an
  integer to its decimal form.
- strptime(pl.Date, "%Y-%m-%d", strict=False) is modelled as the
  strict YYYY-MM-DD subset the module documents: four digit year,
  two digit month, two digit day, calendar-valid; anything else is
  null.
- cast(pl.Float64, strict=False) on strings is modelled as exact
  decimal parsing (sign, digits with at most one point, optional
  exponent) into Rat; special float spellings such as inf or nan
  are out of scope of every claim and not modelled.
- pl.concat(..., how="vertical_relaxed") is modelled for inputs
  that share one schema (the only way the aggregation claims use
  it): first schema, rows appended.
-/

namespace Edc

/-- A cell of a polars table: null, a Utf8 string, or an integer. -/
inductive Value where
  | null
  | str (s : String)
  | int (n : Int)
deriving DecidableEq, Repr

/-- A table row: association list from column name to value. -/
abbrev Row := List (String × Value)

/-- Look a cell up by column name (first match). -/
def cellOf (r : Row) (c : String) : Value :=
  ((r.find? (fun p => p.1 == c)).map (fun p => p.2)).getD Value.null

/-- A polars DataFrame: named columns and ordered rows. -/
structure DataFrame where
  cols : List String
  rows : List Row
deriving DecidableEq, Repr

/-- Column presence test (`c in df.columns`). -/
def DataFrame.hasCol (df : DataFrame) (c : String) : Bool :=
  df.cols.contains c

/-- Is the value non-null (`is_not_null`)? -/
def Value.isNotNull : Value → Bool
  | Value.null => false
  | _ => true

/-- Model of `cast(pl.Utf8, strict=False)`: null stays null, ints print in decimal. -/
def castUtf8 : Value → Option String
  | Value.null => none
  | Value.str s => some s
  | Value.int n => some (toString n)

/-- Model of `str.strip_chars()`: drop leading and trailing whitespace. -/
def stripChars (s : String) : String :=
  String.mk (((s.data.dropWhile Char.isWhitespace).reverse.dropWhile Char.isWhitespace).reverse)

/-- Model of `str.replace_all(",", ".")`. -/
def replaceComma (s : String) : String :=
  String.mk (s.data.map (fun c => if c = ',' then '.' else c))

/-- Decimal digits to a natural number. -/
def digitsToNat (cs : List Char) : Nat :=
  cs.foldl (fun a c => a * 10 + (c.toNat - 48)) 0

/-- A calendar date (proleptic Gregorian), as polars pl.Date. -/
structure Date where
  year : Nat
  month : Nat
  day : Nat
deriving DecidableEq, Repr

/-- Linear key: chronological order for calendar-valid dates. -/
def Date.key (d : Date) : Nat := d.year * 10000 + d.month * 100 + d.day

/-- Gregorian leap year test. -/
def isLeap (y : Nat) : Bool := (y % 4 == 0 && y % 100 != 0) || y % 400 == 0

/-- Days in a month. -/
def daysInMonth (y m : Nat) : Nat :=
  if m = 2 then (if isLeap y then 29 else 28)
  else if m = 4 ∨ m = 6 ∨ m = 9 ∨ m = 11 then 30
  else 31

/-- Strict YYYY-MM-DD parse; None on any other shape or invalid date. -/
def parseDateStr (s : String) : Option Date :=
  match s.data with
  | [y1, y2, y3, y4, h1, m1, m2, h2, d1, d2] =>
    if ([y1, y2, y3, y4, m1, m2, d1, d2].all Char.isDigit) && h1 == '-' && h2 == '-' then
      let y := digitsToNat [y1, y2, y3, y4]
      let m := digitsToNat [m1, m2]
      let d := digitsToNat [d1, d2]
      if 1 ≤ m && m ≤ 12 && 1 ≤ d && d ≤ daysInMonth y m then some ⟨y, m, d⟩ else none
    else none
  | _ => none

/-- Model of `_parse_iso_date`: cast to Utf8 then strptime "%Y-%m-%d" strict=False. -/
def parseIsoDate (v : Value) : Option Date :=
  match castUtf8 v with
  | none => none
  | some s => parseDateStr s

/-- Consume an optional sign, returning the sign and the rest. -/
def takeSign : List Char → Int × List Char
  | '+' :: rest => (1, rest)
  | '-' :: rest => (-1, rest)
  | cs => (1, cs)

/-- Model of `cast(pl.Float64, strict=False)` on a string, as exact decimal parsing. -/
def parseFloatStr (s : String) : Option Rat :=
  let (sgn, cs) := takeSign s.data
  let ip := cs.takeWhile Char.isDigit
  let cs1 := cs.dropWhile Char.isDigit
  let (fp, cs2) :=
    match cs1 with
    | '.' :: rest => (rest.takeWhile Char.isDigit, rest.dropWhile Char.isDigit)
    | _ => ([], cs1)
  if ip.isEmpty && fp.isEmpty then none
  else
    let mant : Rat := (sgn : Rat) * ((digitsToNat (ip ++ fp) : Rat) / ((10 : Rat) ^ fp.length))
    match cs2 with
    | [] => some mant
    | e :: rest =>
      if e == 'e' || e == 'E' then
        let (esgn, r2) := takeSign rest
        if !r2.isEmpty && r2.all Char.isDigit then
          let k := digitsToNat r2
          some (if esgn = 1 then mant * (10 : Rat) ^ k else mant / (10 : Rat) ^ k)
        else none
      else none

/-- Model of `cast(pl.Float64, strict=False)` on a cell. -/
def castFloat : Value → Option Rat
  | Value.null => none
  | Value.int n => some (n : Rat)
  | Value.str s => parseFloatStr s

/-- Anchored regex r"^\d{4}-\d{2}-\d{2}$" of sdtm_rules (shape only). -/
def matchesIsoShape (s : String) : Bool :=
  match s.data with
  | [y1, y2, y3, y4, h1, m1, m2, h2, d1, d2] =>
    ([y1, y2, y3, y4, m1, m2, d1, d2].all Char.isDigit) && h1 == '-' && h2 == '-'
  | _ => false

/-- Zero-padded two digit rendering. -/
def pad2 (n : Nat) : String := if n < 10 then "0" ++ toString n else toString n

/-- Zero-padded four digit rendering. -/
def pad4 (n : Nat) : String :=
  if n < 10 then "000" ++ toString n
  else if n < 100 then "00" ++ toString n
  else if n < 1000 then "0" ++ toString n
  else toString n

/-- pl.Date cast to Utf8: ISO YYYY-MM-DD rendering. -/
def dateStr (d : Date) : String := pad4 d.year ++ "-" ++ pad2 d.month ++ "-" ++ pad2 d.day

/-- Chronological minimum of two dates. -/
def minD (a b : Date) : Date := if a.key ≤ b.key then a else b

/-- Chronological maximum of two dates. -/
def maxD (a b : Date) : Date := if b.key ≤ a.key then a else b

/-! ### Findings model (domain_validation.py) -/

/-- One row of the 9-column findings table of domain_validation.py. -/
structure Finding where
  finding_type : String
  rule_id : String
  severity : String
  domain : String
  field : String
  message : String
  row_index : Int
  usubjid : Option String
  evidence : Option String
deriving DecidableEq, Repr

/-- One row of the 7-column findings table of sdtm_rules.py. -/
structure FindingSR where
  finding_type : String
  rule_id : String
  severity : String
  field : String
  message : String
  row_index : Int
  evidence : Option String
deriving DecidableEq, Repr

/-- Model of `_dataset_level_finding`: row_index -1, empty usubjid and evidence;
finding_type SDTM_RULE only for the VS, AE, CM domains. -/
def datasetLevelFinding (rule_id severity domain field message : String) : Finding :=
  { finding_type :=
      if domain = "VS" ∨ domain = "AE" ∨ domain = "CM" then "SDTM_RULE" else "CROSS_DOMAIN"
    rule_id := rule_id, severity := severity, domain := domain, field := field
    message := message, row_index := -1, usubjid := some "", evidence := some "" }

/-- The columns of `cols` absent from `df` (the `missing` list). -/
def missingCols (df : DataFrame) (cols : List String) : List String :=
  cols.filter (fun c => !(df.hasCol c))

/-- Model of `_require_columns`: empty, or one dataset-level CRIT finding naming
the missing columns (Python renders the list with quotes; the quotes are
elided here, the joined field string is kept exact). -/
def requireColumns (df : DataFrame) (cols : List String) (domain : String) : List Finding :=
  let missing := missingCols df cols
  if missing.isEmpty then []
  else [datasetLevelFinding ("SDTM_" ++ domain ++ "_000") "CRIT" domain
    (String.intercalate "," missing)
    ("Missing required columns for " ++ domain ++ ": [" ++ String.intercalate ", " missing ++ "]")]

/-! ### Row enumeration (`_ensure_row_index` / `with_row_index`) -/

/-- Pair each row with its position, starting at `k`. -/
def indexRows : Nat → List Row → List (Nat × Row)
  | _, [] => []
  | k, r :: rs => (k, r) :: indexRows (k + 1) rs

/-- Evaluate a per-row rule over position-indexed rows. -/
def indexedFilterMap {β : Type} (g : Nat → Row → Option β) (rs : List Row) : List β :=
  (indexRows 0 rs).filterMap (fun p => g p.1 p.2)

/-- Model of `_mk_findings` for one rule: filter the indexed rows by the rule and
stamp each produced finding with its source row position. -/
def rowFindings (rule : Row → Option Finding) (rs : List Row) : List Finding :=
  indexedFilterMap (fun i r => (rule r).map (fun f => { f with row_index := (i : Int) })) rs

/-- sdtm_rules `_mk_findings` for one rule, same indexing discipline. -/
def rowFindingsSR (rule : Row → Option FindingSR) (rs : List Row) : List FindingSR :=
  indexedFilterMap (fun i r => (rule r).map (fun f => { f with row_index := (i : Int) })) rs

/-! ### VS validator (domain_validation.validate_vs) -/

/-- Allowed VSTESTCD terms. -/
def VS_ALLOWED_TESTCD : List String :=
  ["SYSBP", "DIABP", "HR", "TEMP", "WEIGHT", "HEIGHT", "RESP"]

/-- Allowed units per test code. -/
def VS_UNITS_BY_TESTCD : List (String × List String) :=
  [("SYSBP", ["mmHg"]), ("DIABP", ["mmHg"]), ("HR", ["bpm"]),
   ("RESP", ["breaths/min", "bpm"]), ("TEMP", ["C", "F"]),
   ("WEIGHT", ["kg", "g", "lb"]), ("HEIGHT", ["cm", "m", "in"])]

/-- VS_001: USUBJID null or blank after trimming. -/
def vsRule1Row (r : Row) : Option Finding :=
  let u := castUtf8 (cellOf r "USUBJID")
  if u.isNone || (stripChars (u.getD "") == "") then
    some { finding_type := "SDTM_RULE", rule_id := "SDTM_VS_001", severity := "HIGH",
           domain := "VS", field := "USUBJID",
           message := "USUBJID is required and must be non-empty.",
           row_index := 0, usubjid := u, evidence := u }
  else none

/-- VS_002: VSTESTCD present and outside the allowed set. -/
def vsRule2Row (r : Row) : Option Finding :=
  match castUtf8 (cellOf r "VSTESTCD") with
  | none => none
  | some c =>
    if !(VS_ALLOWED_TESTCD.contains c) then
      some { finding_type := "SDTM_RULE", rule_id := "SDTM_VS_002", severity := "MED",
             domain := "VS", field := "VSTESTCD",
             message := "VSTESTCD should be one of the allowed test codes.",
             row_index := 0, usubjid := castUtf8 (cellOf r "USUBJID"), evidence := some c }
    else none

/-- VS_003: VSDTC present but not a parseable ISO date. -/
def vsRule3Row (r : Row) : Option Finding :=
  if (cellOf r "VSDTC").isNotNull && (parseIsoDate (cellOf r "VSDTC")).isNone then
    some { finding_type := "SDTM_RULE", rule_id := "SDTM_VS_003", severity := "LOW",
           domain := "VS", field := "VSDTC",
           message := "VSDTC should be ISO date YYYY-MM-DD (subset check).",
           row_index := 0, usubjid := castUtf8 (cellOf r "USUBJID"),
           evidence := castUtf8 (cellOf r "VSDTC") }
  else none

/-- VS_004: known test code, VSORRES present, not parseable as decimal
after comma normalization. -/
def vsRule4Row (r : Row) : Option Finding :=
  let tcOk := match castUtf8 (cellOf r "VSTESTCD") with
    | some c => VS_ALLOWED_TESTCD.contains c
    | none => false
  let numNull := match castUtf8 (cellOf r "VSORRES") with
    | some s => (parseFloatStr (replaceComma s)).isNone
    | none => true
  if tcOk && (cellOf r "VSORRES").isNotNull && numNull then
    some { finding_type := "SDTM_RULE", rule_id := "SDTM_VS_004", severity := "HIGH",
           domain := "VS", field := "VSORRES",
           message := "VSORRES should be numeric for this VSTESTCD.",
           row_index := 0, usubjid := castUtf8 (cellOf r "USUBJID"),
           evidence := castUtf8 (cellOf r "VSORRES") }
  else none

/-- VS_005 mask: OR over the unit map of (testcd matches, unit present,
unit not allowed). -/
def vsRule5Mask (r : Row) : Bool :=
  VS_UNITS_BY_TESTCD.any (fun p =>
    (castUtf8 (cellOf r "VSTESTCD") == some p.1)
    && (castUtf8 (cellOf r "VSORRESU")).isSome
    && !(p.2.contains ((castUtf8 (cellOf r "VSORRESU")).getD "")))

/-- VS_005 evidence: testcd and unit joined, null-propagating. -/
def vsRule5Evidence (r : Row) : Option String :=
  match castUtf8 (cellOf r "VSTESTCD"), castUtf8 (cellOf r "VSORRESU") with
  | some a, some b => some (a ++ " / " ++ b)
  | _, _ => none

/-- VS_005: unit inconsistent with test code (unit column present). -/
def vsRule5Row (r : Row) : Option Finding :=
  if vsRule5Mask r then
    some { finding_type := "SDTM_RULE", rule_id := "SDTM_VS_005", severity := "MED",
           domain := "VS", field := "VSORRESU",
           message := "VSORRESU unit is not consistent with VSTESTCD (MVP unit map).",
           row_index := 0, usubjid := castUtf8 (cellOf r "USUBJID"),
           evidence := vsRule5Evidence r }
  else none

/-- VS_005 advisory when the unit column is absent. -/
def vsAdvisory : Finding :=
  datasetLevelFinding "SDTM_VS_005" "LOW" "VS" "VSORRESU"
    "Column VSORRESU not present; unit consistency checks skipped."

/-- The mandatory VS columns. -/
def VS_REQUIRED : List String := ["USUBJID", "VSTESTCD", "VSORRES", "VSDTC"]

/-- validate_vs: gate on mandatory columns, else run VS_001..VS_005. -/
def validate_vs (vs : DataFrame) : List Finding :=
  let gate := requireColumns vs VS_REQUIRED "VS"
  if gate.isEmpty then
    rowFindings vsRule1Row vs.rows ++ rowFindings vsRule2Row vs.rows
    ++ rowFindings vsRule3Row vs.rows ++ rowFindings vsRule4Row vs.rows
    ++ (if vs.hasCol "VSORRESU" then rowFindings vsRule5Row vs.rows else [vsAdvisory])
  else gate

/-! ### AE validator (domain_validation.validate_ae) -/

/-- Allowed AESER terms. -/
def AE_ALLOWED_SER : List String := ["Y", "N"]

/-- Allowed AESEV terms. -/
def AE_ALLOWED_SEV : List String := ["MILD", "MODERATE", "SEVERE"]

/-- AE_001: AETERM null or blank after trimming. -/
def aeRule1Row (r : Row) : Option Finding :=
  let t := castUtf8 (cellOf r "AETERM")
  if t.isNone || (stripChars (t.getD "") == "") then
    some { finding_type := "SDTM_RULE", rule_id := "SDTM_AE_001", severity := "HIGH",
           domain := "AE", field := "AETERM",
           message := "AETERM is required and must be non-empty.",
           row_index := 0, usubjid := castUtf8 (cellOf r "USUBJID"), evidence := t }
  else none

/-- AE_002: AESTDTC present but not a parseable ISO date. -/
def aeRule2Row (r : Row) : Option Finding :=
  if (cellOf r "AESTDTC").isNotNull && (parseIsoDate (cellOf r "AESTDTC")).isNone then
    some { finding_type := "SDTM_RULE", rule_id := "SDTM_AE_002", severity := "MED",
           domain := "AE", field := "AESTDTC",
           message := "AESTDTC should be ISO date YYYY-MM-DD (subset check).",
           row_index := 0, usubjid := castUtf8 (cellOf r "USUBJID"),
           evidence := castUtf8 (cellOf r "AESTDTC") }
  else none

/-- AE_003: AEENDTC present but not a parseable ISO date. -/
def aeRule3Row (r : Row) : Option Finding :=
  if (cellOf r "AEENDTC").isNotNull && (parseIsoDate (cellOf r "AEENDTC")).isNone then
    some { finding_type := "SDTM_RULE", rule_id := "SDTM_AE_003", severity := "LOW",
           domain := "AE", field := "AEENDTC",
           message := "AEENDTC should be ISO date YYYY-MM-DD (subset check).",
           row_index := 0, usubjid := castUtf8 (cellOf r "USUBJID"),
           evidence := castUtf8 (cellOf r "AEENDTC") }
  else none

/-- Comparison evidence of the form left > right, null-propagating. -/
def cmpEvidence (l r : Option String) : Option String :=
  match l, r with
  | some a, some b => some (a ++ " > " ++ b)
  | _, _ => none

/-- AE_004: both dates parseable and start strictly after end. -/
def aeRule4Row (r : Row) : Option Finding :=
  match parseIsoDate (cellOf r "AESTDTC"), parseIsoDate (cellOf r "AEENDTC") with
  | some a, some b =>
    if b.key < a.key then
      some { finding_type := "SDTM_RULE", rule_id := "SDTM_AE_004", severity := "HIGH",
             domain := "AE", field := "AESTDTC/AEENDTC",
             message := "AESTDTC must be on/before AEENDTC.",
             row_index := 0, usubjid := castUtf8 (cellOf r "USUBJID"),
             evidence := cmpEvidence (castUtf8 (cellOf r "AESTDTC")) (castUtf8 (cellOf r "AEENDTC")) }
    else none
  | _, _ => none

/-- AE_005: AESER present and outside the allowed set. -/
def aeRule5Row (r : Row) : Option Finding :=
  match castUtf8 (cellOf r "AESER") with
  | none => none
  | some c =>
    if !(AE_ALLOWED_SER.contains c) then
      some { finding_type := "SDTM_RULE", rule_id := "SDTM_AE_005", severity := "MED",
             domain := "AE", field := "AESER",
             message := "AESER should be one of: Y, N.",
             row_index := 0, usubjid := castUtf8 (cellOf r "USUBJID"), evidence := some c }
    else none

/-- AE_006: AESEV present and outside the allowed set. -/
def aeRule6Row (r : Row) : Option Finding :=
  match castUtf8 (cellOf r "AESEV") with
  | none => none
  | some c =>
    if !(AE_ALLOWED_SEV.contains c) then
      some { finding_type := "SDTM_RULE", rule_id := "SDTM_AE_006", severity := "LOW",
             domain := "AE", field := "AESEV",
             message := "AESEV should be one of: MILD, MODERATE, SEVERE.",
             row_index := 0, usubjid := castUtf8 (cellOf r "USUBJID"), evidence := some c }
    else none

/-- The mandatory AE columns. -/
def AE_REQUIRED : List String := ["USUBJID", "AETERM", "AESTDTC"]

/-- validate_ae: gate, then AE_001..AE_006 (rules on optional columns
run only when the column is present; no advisory is emitted). -/
def validate_ae (ae : DataFrame) : List Finding :=
  let gate := requireColumns ae AE_REQUIRED "AE"
  if gate.isEmpty then
    rowFindings aeRule1Row ae.rows ++ rowFindings aeRule2Row ae.rows
    ++ (if ae.hasCol "AEENDTC" then rowFindings aeRule3Row ae.rows else [])
    ++ (if ae.hasCol "AEENDTC" then rowFindings aeRule4Row ae.rows else [])
    ++ (if ae.hasCol "AESER" then rowFindings aeRule5Row ae.rows else [])
    ++ (if ae.hasCol "AESEV" then rowFindings aeRule6Row ae.rows else [])
  else gate

/-! ### CM validator (domain_validation.validate_cm) -/

/-- CM_001: CMTRT null or blank after trimming. -/
def cmRule1Row (r : Row) : Option Finding :=
  let t := castUtf8 (cellOf r "CMTRT")
  if t.isNone || (stripChars (t.getD "") == "") then
    some { finding_type := "SDTM_RULE", rule_id := "SDTM_CM_001", severity := "HIGH",
           domain := "CM", field := "CMTRT",
           message := "CMTRT is required and must be non-empty.",
           row_index := 0, usubjid := castUtf8 (cellOf r "USUBJID"), evidence := t }
  else none

/-- CM_002: CMSTDTC present but not a parseable ISO date. -/
def cmRule2Row (r : Row) : Option Finding :=
  if (cellOf r "CMSTDTC").isNotNull && (parseIsoDate (cellOf r "CMSTDTC")).isNone then
    some { finding_type := "SDTM_RULE", rule_id := "SDTM_CM_002", severity := "MED",
           domain := "CM", field := "CMSTDTC",
           message := "CMSTDTC should be ISO date YYYY-MM-DD (subset check).",
           row_index := 0, usubjid := castUtf8 (cellOf r "USUBJID"),
           evidence := castUtf8 (cellOf r "CMSTDTC") }
  else none

/-- CM_003: CMENDTC present but not a parseable ISO date. -/
def cmRule3Row (r : Row) : Option Finding :=
  if (cellOf r "CMENDTC").isNotNull && (parseIsoDate (cellOf r "CMENDTC")).isNone then
    some { finding_type := "SDTM_RULE", rule_id := "SDTM_CM_003", severity := "LOW",
           domain := "CM", field := "CMENDTC",
           message := "CMENDTC should be ISO date YYYY-MM-DD (subset check).",
           row_index := 0, usubjid := castUtf8 (cellOf r "USUBJID"),
           evidence := castUtf8 (cellOf r "CMENDTC") }
  else none

/-- CM_004: both dates parseable and start strictly after end. -/
def cmRule4Row (r : Row) : Option Finding :=
  match parseIsoDate (cellOf r "CMSTDTC"), parseIsoDate (cellOf r "CMENDTC") with
  | some a, some b =>
    if b.key < a.key then
      some { finding_type := "SDTM_RULE", rule_id := "SDTM_CM_004", severity := "HIGH",
             domain := "CM", field := "CMSTDTC/CMENDTC",
             message := "CMSTDTC must be on/before CMENDTC.",
             row_index := 0, usubjid := castUtf8 (cellOf r "USUBJID"),
             evidence := cmpEvidence (castUtf8 (cellOf r "CMSTDTC")) (castUtf8 (cellOf r "CMENDTC")) }
    else none
  | _, _ => none

/-- The mandatory CM columns. -/
def CM_REQUIRED : List String := ["USUBJID", "CMTRT", "CMSTDTC"]

/-- validate_cm: gate, then CM_001..CM_004 (CM_003 and CM_004 only when
CMENDTC is present; no advisory is emitted). -/
def validate_cm (cm : DataFrame) : List Finding :=
  let gate := requireColumns cm CM_REQUIRED "CM"
  if gate.isEmpty then
    rowFindings cmRule1Row cm.rows ++ rowFindings cmRule2Row cm.rows
    ++ (if cm.hasCol "CMENDTC" then rowFindings cmRule3Row cm.rows else [])
    ++ (if cm.hasCol "CMENDTC" then rowFindings cmRule4Row cm.rows else [])
  else gate

/-! ### DM validator (domain_validation.validate_dm) -/

/-- Allowed SEX terms. -/
def DM_ALLOWED_SEX : List String := ["M", "F", "U"]

/-- Allowed AGEU terms. -/
def DM_ALLOWED_AGEU : List String := ["YEARS", "MONTHS", "DAYS"]

/-- DM_001: USUBJID null or blank after trimming. -/
def dmRule1Row (r : Row) : Option Finding :=
  let u := castUtf8 (cellOf r "USUBJID")
  if u.isNone || (stripChars (u.getD "") == "") then
    some { finding_type := "SDTM_RULE", rule_id := "SDTM_DM_001", severity := "HIGH",
           domain := "DM", field := "USUBJID",
           message := "USUBJID is required and must be non-empty.",
           row_index := 0, usubjid := u, evidence := u }
  else none

/-- Occurrences of the string id `s` among the rows the DM_002 filter
keeps (non-null and non-blank; equal values share the same trim, so the
blank test can be read off the value itself). -/
def dmDupCount (rows : List Row) (s : String) : Nat :=
  rows.countP (fun r2 =>
    match castUtf8 (cellOf r2 "USUBJID") with
    | some x => (stripChars x != "") && (x == s)
    | none => false)

/-- DM_002: non-null, non-blank id belonging to a duplicate-valued
group; every member of the group is flagged (polars is_duplicated). -/
def dmRule2Row (allRows : List Row) (r : Row) : Option Finding :=
  match castUtf8 (cellOf r "USUBJID") with
  | none => none
  | some s =>
    if (stripChars s != "") && (2 ≤ dmDupCount allRows s) then
      some { finding_type := "SDTM_RULE", rule_id := "SDTM_DM_002", severity := "HIGH",
             domain := "DM", field := "USUBJID",
             message := "USUBJID must be unique in DM.",
             row_index := 0, usubjid := some s, evidence := some s }
    else none

/-- DM_003: SEX present and outside the allowed set. -/
def dmRule3Row (r : Row) : Option Finding :=
  match castUtf8 (cellOf r "SEX") with
  | none => none
  | some c =>
    if !(DM_ALLOWED_SEX.contains c) then
      some { finding_type := "SDTM_RULE", rule_id := "SDTM_DM_003", severity := "MED",
             domain := "DM", field := "SEX",
             message := "SEX should be one of: M, F, U.",
             row_index := 0, usubjid := castUtf8 (cellOf r "USUBJID"), evidence := some c }
    else none

/-- DM_004: AGE parseable and outside [0, 120]. -/
def dmRule4Row (r : Row) : Option Finding :=
  match castFloat (cellOf r "AGE") with
  | none => none
  | some x =>
    if x < 0 ∨ (120 : Rat) < x then
      some { finding_type := "SDTM_RULE", rule_id := "SDTM_DM_004", severity := "MED",
             domain := "DM", field := "AGE",
             message := "AGE should be between 0 and 120 (MVP heuristic).",
             row_index := 0, usubjid := castUtf8 (cellOf r "USUBJID"),
             evidence := castUtf8 (cellOf r "AGE") }
    else none

/-- DM_005: AGE parseable and AGEU null or outside the allowed set. -/
def dmRule5Row (r : Row) : Option Finding :=
  if (castFloat (cellOf r "AGE")).isSome
     && (match castUtf8 (cellOf r "AGEU") with
         | none => true
         | some c => !(DM_ALLOWED_AGEU.contains c)) then
    some { finding_type := "SDTM_RULE", rule_id := "SDTM_DM_005", severity := "LOW",
           domain := "DM", field := "AGEU",
           message := "AGEU should be one of: YEARS, MONTHS, DAYS when AGE is present.",
           row_index := 0, usubjid := castUtf8 (cellOf r "USUBJID"),
           evidence := castUtf8 (cellOf r "AGEU") }
  else none

/-- DM_006: RFSTDTC present but not a parseable ISO date. -/
def dmRule6Row (r : Row) : Option Finding :=
  if (cellOf r "RFSTDTC").isNotNull && (parseIsoDate (cellOf r "RFSTDTC")).isNone then
    some { finding_type := "SDTM_RULE", rule_id := "SDTM_DM_006", severity := "LOW",
           domain := "DM", field := "RFSTDTC",
           message := "RFSTDTC should be ISO date YYYY-MM-DD (subset check).",
           row_index := 0, usubjid := castUtf8 (cellOf r "USUBJID"),
           evidence := castUtf8 (cellOf r "RFSTDTC") }
  else none

/-- DM_007: RFENDTC present but not a parseable ISO date. -/
def dmRule7Row (r : Row) : Option Finding :=
  if (cellOf r "RFENDTC").isNotNull && (parseIsoDate (cellOf r "RFENDTC")).isNone then
    some { finding_type := "SDTM_RULE", rule_id := "SDTM_DM_007", severity := "LOW",
           domain := "DM", field := "RFENDTC",
           message := "RFENDTC should be ISO date YYYY-MM-DD (subset check).",
           row_index := 0, usubjid := castUtf8 (cellOf r "USUBJID"),
           evidence := castUtf8 (cellOf r "RFENDTC") }
  else none

/-- DM_008: both reference dates parseable and start strictly after end. -/
def dmRule8Row (r : Row) : Option Finding :=
  match parseIsoDate (cellOf r "RFSTDTC"), parseIsoDate (cellOf r "RFENDTC") with
  | some a, some b =>
    if b.key < a.key then
      some { finding_type := "SDTM_RULE", rule_id := "SDTM_DM_008", severity := "HIGH",
             domain := "DM", field := "RFSTDTC/RFENDTC",
             message := "RFSTDTC must be on/before RFENDTC.",
             row_index := 0, usubjid := castUtf8 (cellOf r "USUBJID"),
             evidence := cmpEvidence (castUtf8 (cellOf r "RFSTDTC")) (castUtf8 (cellOf r "RFENDTC")) }
    else none
  | _, _ => none

/-- The mandatory DM columns. -/
def DM_REQUIRED : List String := ["USUBJID", "STUDYID"]

/-- validate_dm: gate on USUBJID and STUDYID, then DM_001..DM_008
(rules on optional columns run only when present; no advisory). -/
def validate_dm (dm : DataFrame) : List Finding :=
  let gate := requireColumns dm DM_REQUIRED "DM"
  if gate.isEmpty then
    rowFindings dmRule1Row dm.rows
    ++ rowFindings (dmRule2Row dm.rows) dm.rows
    ++ (if dm.hasCol "SEX" then rowFindings dmRule3Row dm.rows else [])
    ++ (if dm.hasCol "AGE" then rowFindings dmRule4Row dm.rows else [])
    ++ (if dm.hasCol "AGE" && dm.hasCol "AGEU" then rowFindings dmRule5Row dm.rows else [])
    ++ (if dm.hasCol "RFSTDTC" then rowFindings dmRule6Row dm.rows else [])
    ++ (if dm.hasCol "RFENDTC" then rowFindings dmRule7Row dm.rows else [])
    ++ (if dm.hasCol "RFSTDTC" && dm.hasCol "RFENDTC" then rowFindings dmRule8Row dm.rows else [])
  else gate

/-! ### Cross-domain checks -/

/-- The polars join key test used by the anti-join and inner join: two
keys match only when both are non-null and equal (join_nulls=False). -/
def joinAny (anchor : DataFrame) (u : Option String) : Bool :=
  match u with
  | none => false
  | some s => anchor.rows.any (fun r => castUtf8 (cellOf r "USUBJID") == some s)

/-- One orphan finding for a dependent row unmatched in DM. -/
def dmLinkRow (dm : DataFrame) (dom : String) (r : Row) : Option Finding :=
  let u := castUtf8 (cellOf r "USUBJID")
  if joinAny dm u then none
  else
    some { finding_type := "CROSS_DOMAIN", rule_id := "X_DMLINK_" ++ dom ++ "_001",
           severity := "HIGH", domain := "CROSS", field := "USUBJID",
           message := dom ++ " subject not found in DM (orphan USUBJID).",
           row_index := 0, usubjid := u, evidence := u }

/-- validate_dm_link (run_validator.py, duplicated in
domain_validation.py): anti-join of the dependent table against the
distinct DM ids (deduplication does not change membership). -/
def validate_dm_link (dm other : DataFrame) (dom : String) : List Finding :=
  if dm.hasCol "USUBJID" && other.hasCol "USUBJID" then
    rowFindings (dmLinkRow dm dom) other.rows
  else
    [datasetLevelFinding ("X_DMLINK_" ++ dom ++ "_000") "CRIT" "CROSS" "USUBJID"
      ("Missing USUBJID for DM/" ++ dom ++ " link check.")]

/-- X_VSAE_001: AE row unmatched among the VS subject ids. -/
def vsaeOrphanRow (vs : DataFrame) (r : Row) : Option Finding :=
  let u := castUtf8 (cellOf r "USUBJID")
  if joinAny vs u then none
  else
    some { finding_type := "CROSS_DOMAIN", rule_id := "X_VSAE_001", severity := "HIGH",
           domain := "CROSS", field := "USUBJID",
           message := "AE subject not found in VS (orphan USUBJID).",
           row_index := 0, usubjid := u, evidence := u }

/-- The successfully parsed VS dates of one string-keyed subject. -/
def vsDatesFor (vs : DataFrame) (s : String) : List Date :=
  vs.rows.filterMap (fun r =>
    if castUtf8 (cellOf r "USUBJID") == some s then parseIsoDate (cellOf r "VSDTC") else none)

/-- vs_range for one subject: min and max of the parsed dates, none when
the subject has no parsed date (the group does not exist). -/
def vsRangeFor (vs : DataFrame) (s : String) : Option (Date × Date) :=
  match vsDatesFor vs s with
  | [] => none
  | d :: ds => some (ds.foldl minD d, ds.foldl maxD d)

/-- X_VSAE_002: parseable AE start date strictly outside the closed VS
range of its subject (subjects without a range are dropped by the inner
join). -/
def vsaeRangeRow (vs : DataFrame) (r : Row) : Option Finding :=
  match castUtf8 (cellOf r "USUBJID") with
  | none => none
  | some s =>
    match vsRangeFor vs s with
    | none => none
    | some (lo, hi) =>
      match parseIsoDate (cellOf r "AESTDTC") with
      | none => none
      | some d =>
        if d.key < lo.key ∨ hi.key < d.key then
          some { finding_type := "CROSS_DOMAIN", rule_id := "X_VSAE_002", severity := "MED",
                 domain := "CROSS", field := "AESTDTC",
                 message := "AE start date is outside the subject VS date range (MVP heuristic).",
                 row_index := 0, usubjid := some s,
                 evidence := (castUtf8 (cellOf r "AESTDTC")).map
                   (fun t => t ++ " vs [" ++ dateStr lo ++ ", " ++ dateStr hi ++ "]") }
        else none

/-- validate_vs_ae: column gate, then the orphan and range checks. -/
def validate_vs_ae (vs ae : DataFrame) : List Finding :=
  if vs.hasCol "USUBJID" && vs.hasCol "VSDTC" && ae.hasCol "USUBJID" && ae.hasCol "AESTDTC" then
    rowFindings (vsaeOrphanRow vs) ae.rows ++ rowFindings (vsaeRangeRow vs) ae.rows
  else
    [datasetLevelFinding "X_VSAE_000" "CRIT" "CROSS" "USUBJID/--DTC"
      "Missing required columns for VS/AE cross checks (need VS USUBJID,VSDTC and AE USUBJID,AESTDTC)."]

end Edc

namespace Edc.SdtmRules

/-! ### Superseded prototype DM validator (sdtm_rules.validate_dm) -/

/-- DM_001: USUBJID null or blank after trimming. -/
def srRule1Row (r : Row) : Option FindingSR :=
  let u := castUtf8 (cellOf r "USUBJID")
  if u.isNone || (stripChars (u.getD "") == "") then
    some { finding_type := "SDTM_RULE", rule_id := "SDTM_DM_001", severity := "HIGH",
           field := "USUBJID", message := "USUBJID is required and must be non-empty.",
           row_index := 0, evidence := u }
  else none

/-- Occurrences of the string id `s` among the non-null ids (the DM_002
filter keeps exactly the rows whose cast id is non-null). -/
def srDupCount (rows : List Row) (s : String) : Nat :=
  rows.countP (fun r2 => castUtf8 (cellOf r2 "USUBJID") == some s)

/-- DM_002: non-null id belonging to a duplicate-valued group; every
member of the group is flagged (polars is_duplicated). -/
def srRule2Row (allRows : List Row) (r : Row) : Option FindingSR :=
  match castUtf8 (cellOf r "USUBJID") with
  | none => none
  | some s =>
    if 2 ≤ srDupCount allRows s then
      some { finding_type := "SDTM_RULE", rule_id := "SDTM_DM_002", severity := "HIGH",
             field := "USUBJID", message := "USUBJID must be unique in DM.",
             row_index := 0, evidence := some s }
    else none

/-- Dataset-level finding when the USUBJID column is missing entirely. -/
def srMissingUsubjid : FindingSR :=
  { finding_type := "SDTM_RULE", rule_id := "SDTM_DM_001", severity := "HIGH",
    field := "USUBJID", message := "Missing required column USUBJID.",
    row_index := -1, evidence := some "" }

/-- DM_003: STUDYID null or blank after trimming. -/
def srRule3Row (r : Row) : Option FindingSR :=
  let t := castUtf8 (cellOf r "STUDYID")
  if t.isNone || (stripChars (t.getD "") == "") then
    some { finding_type := "SDTM_RULE", rule_id := "SDTM_DM_003", severity := "HIGH",
           field := "STUDYID", message := "STUDYID is required and must be non-empty.",
           row_index := 0, evidence := t }
  else none

/-- DM_004: SEX present and outside the allowed set. -/
def srRule4Row (r : Row) : Option FindingSR :=
  match castUtf8 (cellOf r "SEX") with
  | none => none
  | some c =>
    if !(["M", "F", "U"].contains c) then
      some { finding_type := "SDTM_RULE", rule_id := "SDTM_DM_004", severity := "MED",
             field := "SEX", message := "SEX must be one of: M, F, U.",
             row_index := 0, evidence := some c }
    else none

/-- DM_005: AGE parseable and outside [0, 120]. -/
def srRule5Row (r : Row) : Option FindingSR :=
  match castFloat (cellOf r "AGE") with
  | none => none
  | some x =>
    if x < 0 ∨ (120 : Rat) < x then
      some { finding_type := "SDTM_RULE", rule_id := "SDTM_DM_005", severity := "MED",
             field := "AGE",
             message := "AGE should be between 0 and 120 for typical adult/human studies.",
             row_index := 0, evidence := castUtf8 (cellOf r "AGE") }
    else none

/-- DM_006: RFSTDTC present and not of the anchored YYYY-MM-DD shape. -/
def srRule6Row (r : Row) : Option FindingSR :=
  match castUtf8 (cellOf r "RFSTDTC") with
  | none => none
  | some s =>
    if !(matchesIsoShape s) then
      some { finding_type := "SDTM_RULE", rule_id := "SDTM_DM_006", severity := "LOW",
             field := "RFSTDTC",
             message := "RFSTDTC should be ISO 8601 date format YYYY-MM-DD (subset check).",
             row_index := 0, evidence := some s }
    else none

/-- sdtm_rules.validate_dm: per-column presence branching, no CRIT gate;
the missing-USUBJID case is a HIGH dataset-level row and the remaining
rules still run. -/
def validate_dm (df : DataFrame) : List FindingSR :=
  (if df.hasCol "USUBJID" then
    rowFindingsSR srRule1Row df.rows ++ rowFindingsSR (srRule2Row df.rows) df.rows
   else [srMissingUsubjid])
  ++ (if df.hasCol "STUDYID" then rowFindingsSR srRule3Row df.rows else [])
  ++ (if df.hasCol "SEX" then rowFindingsSR srRule4Row df.rows else [])
  ++ (if df.hasCol "AGE" then rowFindingsSR srRule5Row df.rows else [])
  ++ (if df.hasCol "RFSTDTC" then rowFindingsSR srRule6Row df.rows else [])

end Edc.SdtmRules

namespace Edc

/-! ### Findings schema and aggregation (datasets_json.py) -/

/-- The two polars dtypes the findings schemas use. -/
inductive PType where
  | Utf8
  | Int64
deriving DecidableEq, Repr

/-- FINDINGS_SCHEMA of domain_validation.py: 9 named, typed columns. -/
def FINDINGS_SCHEMA : List (String × PType) :=
  [("finding_type", PType.Utf8), ("rule_id", PType.Utf8), ("severity", PType.Utf8),
   ("domain", PType.Utf8), ("field", PType.Utf8), ("message", PType.Utf8),
   ("row_index", PType.Int64), ("usubjid", PType.Utf8), ("evidence", PType.Utf8)]

/-- The 9 column names, in schema order. -/
def FINDINGS_COLS : List String := FINDINGS_SCHEMA.map Prod.fst

/-- DatasetJsonIO.FINDINGS_SCHEMA: 7 named, typed columns (no domain,
no usubjid). -/
def DJ_FINDINGS_SCHEMA : List (String × PType) :=
  [("finding_type", PType.Utf8), ("rule_id", PType.Utf8), ("severity", PType.Utf8),
   ("field", PType.Utf8), ("message", PType.Utf8),
   ("row_index", PType.Int64), ("evidence", PType.Utf8)]

/-- The 7 column names, in schema order. -/
def DJ_FINDINGS_COLS : List String := DJ_FINDINGS_SCHEMA.map Prod.fst

/-- A nullable Utf8 cell. -/
def optValue : Option String → Value
  | none => Value.null
  | some s => Value.str s

/-- One finding rendered as a table row in schema order (the final
select/cast of every validator). -/
def findingRow (f : Finding) : Row :=
  [("finding_type", Value.str f.finding_type), ("rule_id", Value.str f.rule_id),
   ("severity", Value.str f.severity), ("domain", Value.str f.domain),
   ("field", Value.str f.field), ("message", Value.str f.message),
   ("row_index", Value.int f.row_index), ("usubjid", optValue f.usubjid),
   ("evidence", optValue f.evidence)]

/-- A findings list as the 9-column DataFrame every validator returns. -/
def findingsDF (fs : List Finding) : DataFrame :=
  { cols := FINDINGS_COLS, rows := fs.map findingRow }

/-- DatasetJsonIO.empty_findings: zero rows over the 7-column schema. -/
def DJ_empty_findings : DataFrame :=
  { cols := DJ_FINDINGS_COLS, rows := [] }

/-- pl.concat(how="vertical_relaxed") over schema-equal inputs: first
schema, rows appended. -/
def concatRelaxed (parts : List DataFrame) : DataFrame :=
  { cols := ((parts.head?).map DataFrame.cols).getD []
    rows := (parts.map DataFrame.rows).flatten }

/-- DatasetJsonIO.concat_findings: drop zero-width parts, return
empty_findings on an empty list, else vertical concatenation. -/
def DJ_concat_findings (parts : List DataFrame) : DataFrame :=
  let ps := parts.filter (fun p => 0 < p.cols.length)
  if ps.isEmpty then DJ_empty_findings else concatRelaxed ps

/-- Claim predicate: a finding of rule `R` at row `i` satisfying `q`. -/
def atRowRule (i : Nat) (R : String) (q : Finding → Bool) (f : Finding) : Bool :=
  f.row_index == (i : Int) && (f.rule_id == R && q f)

/-- The same claim predicate over the 7-column sdtm_rules findings. -/
def atRowRuleSR (i : Nat) (R : String) (q : FindingSR → Bool) (f : FindingSR) : Bool :=
  f.row_index == (i : Int) && (f.rule_id == R && q f)

/-! ### Concrete example tables used by the claims -/

/-- Anchor table with subject ids A, B, C. -/
def dmABC : DataFrame :=
  ⟨["USUBJID"], [[("USUBJID", Value.str "A")], [("USUBJID", Value.str "B")],
    [("USUBJID", Value.str "C")]]⟩

/-- Dependent table with subject ids A, D. -/
def depAD : DataFrame :=
  ⟨["USUBJID"], [[("USUBJID", Value.str "A")], [("USUBJID", Value.str "D")]]⟩

/-- Anchor table with the single subject id A. -/
def dmOneA : DataFrame :=
  ⟨["USUBJID"], [[("USUBJID", Value.str "A")]]⟩

/-- Dependent table whose ids differ from A only by whitespace or case. -/
def depDrift : DataFrame :=
  ⟨["USUBJID"], [[("USUBJID", Value.str " A")], [("USUBJID", Value.str "a")]]⟩

/-- Anchor table containing one null subject id. -/
def dmNullT : DataFrame := ⟨["USUBJID"], [[("USUBJID", Value.null)]]⟩

/-- Dependent table containing one null subject id. -/
def depNullT : DataFrame := ⟨["USUBJID"], [[("USUBJID", Value.null)]]⟩

/-- VS anchor rows giving subject A the range 2024-01-01 .. 2024-03-01. -/
def vsAnchorW : DataFrame :=
  ⟨["USUBJID", "VSDTC"],
   [[("USUBJID", Value.str "A"), ("VSDTC", Value.str "2024-01-01")],
    [("USUBJID", Value.str "A"), ("VSDTC", Value.str "2024-03-01")]]⟩

/-- AE row for subject A dated 2024-05-01, outside the range above. -/
def aeDepW : DataFrame :=
  ⟨["USUBJID", "AESTDTC"],
   [[("USUBJID", Value.str "A"), ("AESTDTC", Value.str "2024-05-01")]]⟩

/-- VS table with one null date and one wrong-separator date. -/
def vsFmtW : DataFrame :=
  ⟨["USUBJID", "VSTESTCD", "VSORRES", "VSDTC"],
   [[("USUBJID", Value.str "S1"), ("VSTESTCD", Value.str "HR"),
     ("VSORRES", Value.str "70"), ("VSDTC", Value.null)],
    [("USUBJID", Value.str "S1"), ("VSTESTCD", Value.str "HR"),
     ("VSORRES", Value.str "abc"), ("VSDTC", Value.str "2024/01/01")]]⟩

/-- Clean AE table carrying only the mandatory columns: the optional
AEENDTC, AESER, AESEV columns are absent. -/
def aeCleanT : DataFrame :=
  ⟨["USUBJID", "AETERM", "AESTDTC"],
   [[("USUBJID", Value.str "S1"), ("AETERM", Value.str "Headache"),
     ("AESTDTC", Value.str "2024-01-01")]]⟩

/-- Clean CM table carrying only the mandatory columns. -/
def cmCleanT : DataFrame :=
  ⟨["USUBJID", "CMTRT", "CMSTDTC"],
   [[("USUBJID", Value.str "S1"), ("CMTRT", Value.str "Aspirin"),
     ("CMSTDTC", Value.str "2024-01-01")]]⟩

/-- Clean DM table carrying only the mandatory columns. -/
def dmCleanT : DataFrame :=
  ⟨["USUBJID", "STUDYID"],
   [[("USUBJID", Value.str "S1"), ("STUDYID", Value.str "ST01")]]⟩

/-- VS table without the optional VSORRESU column. -/
def vsNoUnitT : DataFrame :=
  ⟨["USUBJID", "VSTESTCD", "VSORRES", "VSDTC"],
   [[("USUBJID", Value.str "S1"), ("VSTESTCD", Value.str "HR"),
     ("VSORRES", Value.str "70"), ("VSDTC", Value.str "2024-01-01")]]⟩

/-- VS table with a unit inconsistent with its test code. -/
def vsUnitT : DataFrame :=
  ⟨["USUBJID", "VSTESTCD", "VSORRES", "VSDTC", "VSORRESU"],
   [[("USUBJID", Value.str "S1"), ("VSTESTCD", Value.str "HR"),
     ("VSORRES", Value.str "70"), ("VSDTC", Value.str "2024-01-01"),
     ("VSORRESU", Value.str "mmHg")]]⟩

/-- DM table with ids A, A, B, B, null (uniqueness example). -/
def dmDupT : DataFrame :=
  ⟨["USUBJID"],
   [[("USUBJID", Value.str "A")], [("USUBJID", Value.str "A")],
    [("USUBJID", Value.str "B")], [("USUBJID", Value.str "B")],
    [("USUBJID", Value.null)]]⟩

/-- AE table whose two rows have start after end, and start equal to end. -/
def aeOrdT : DataFrame :=
  ⟨["USUBJID", "AETERM", "AESTDTC", "AEENDTC"],
   [[("USUBJID", Value.str "S1"), ("AETERM", Value.str "Nausea"),
     ("AESTDTC", Value.str "2024-02-01"), ("AEENDTC", Value.str "2024-01-01")],
    [("USUBJID", Value.str "S1"), ("AETERM", Value.str "Nausea"),
     ("AESTDTC", Value.str "2024-02-01"), ("AEENDTC", Value.str "2024-02-01")]]⟩

/-- CM table whose two rows have start after end, and start equal to end. -/
def cmOrdT : DataFrame :=
  ⟨["USUBJID", "CMTRT", "CMSTDTC", "CMENDTC"],
   [[("USUBJID", Value.str "S1"), ("CMTRT", Value.str "Aspirin"),
     ("CMSTDTC", Value.str "2024-02-01"), ("CMENDTC", Value.str "2024-01-01")],
    [("USUBJID", Value.str "S1"), ("CMTRT", Value.str "Aspirin"),
     ("CMSTDTC", Value.str "2024-02-01"), ("CMENDTC", Value.str "2024-02-01")]]⟩

/-- DM table whose two rows have reference start after end, and equal. -/
def dmOrdT : DataFrame :=
  ⟨["USUBJID", "STUDYID", "RFSTDTC", "RFENDTC"],
   [[("USUBJID", Value.str "S1"), ("STUDYID", Value.str "ST01"),
     ("RFSTDTC", Value.str "2024-02-01"), ("RFENDTC", Value.str "2024-01-01")],
    [("USUBJID", Value.str "S2"), ("STUDYID", Value.str "ST01"),
     ("RFSTDTC", Value.str "2024-02-01"), ("RFENDTC", Value.str "2024-02-01")]]⟩

end Edc

namespace Edc

/-! ### Counting lemmas for the per-rule blocks -/

theorem mem_indexRows : ∀ {rs : List Row} {k : Nat} {p : Nat × Row},
    p ∈ indexRows k rs → k ≤ p.1 ∧ rs[p.1 - k]? = some p.2 := by
  intro rs
  induction rs with
  | nil => intro k p h; simp [indexRows] at h
  | cons r rest ih =>
    intro k p h
    simp only [indexRows, List.mem_cons] at h
    rcases h with h | h
    · subst h; exact ⟨Nat.le_refl _, by simp⟩
    · obtain ⟨h1, h2⟩ := ih h
      refine ⟨by omega, ?_⟩
      have he : p.1 - k = (p.1 - (k + 1)) + 1 := by omega
      rw [he, List.getElem?_cons_succ]
      exact h2

theorem countP_indexed_ge {β : Type} (π : β → Int) (g : Nat → Row → Option β)
    (hg : ∀ j s b, g j s = some b → π b = (j : Int)) (q : β → Bool) :
    ∀ (rs : List Row) (k i : Nat), i < k →
      ((indexRows k rs).filterMap (fun p => g p.1 p.2)).countP
        (fun b => π b == (i : Int) && q b) = 0 := by
  intro rs k i hik
  refine List.countP_eq_zero.mpr ?_
  intro b hb
  obtain ⟨p, hp, hgp⟩ := List.mem_filterMap.mp hb
  obtain ⟨hk, _⟩ := mem_indexRows hp
  have hπ : π b = (p.1 : Int) := hg p.1 p.2 b hgp
  have hne : (π b == (i : Int)) = false := by
    rw [hπ, beq_eq_false_iff_ne]
    intro hcontra
    have : p.1 = i := by exact_mod_cast hcontra
    omega
  simp [hne]

theorem countP_indexedAux {β : Type} (π : β → Int) (g : Nat → Row → Option β)
    (hg : ∀ j s b, g j s = some b → π b = (j : Int)) (q : β → Bool) :
    ∀ (rs : List Row) (k i : Nat) (r : Row), k ≤ i → rs[i - k]? = some r →
      ((indexRows k rs).filterMap (fun p => g p.1 p.2)).countP
          (fun b => π b == (i : Int) && q b)
        = (match g i r with
           | some b => (if q b then 1 else 0)
           | none => 0) := by
  intro rs
  induction rs with
  | nil => intro k i r _ hr; simp at hr
  | cons s rest ih =>
    intro k i r hk hr
    by_cases hik : k = i
    · subst hik
      rw [Nat.sub_self] at hr
      simp only [List.getElem?_cons_zero, Option.some.injEq] at hr
      subst hr
      simp only [indexRows, List.filterMap_cons]
      cases hgk : g k s with
      | none =>
        exact countP_indexed_ge π g hg q rest (k + 1) k (by omega)
      | some b =>
        have hπ : π b = (k : Int) := hg k s b hgk
        rw [List.countP_cons, countP_indexed_ge π g hg q rest (k + 1) k (by omega)]
        have hbeq : (π b == (k : Int)) = true := by rw [hπ]; exact beq_self_eq_true _
        simp [hbeq, hgk]
    · have hki : k < i := Nat.lt_of_le_of_ne hk hik
      have he : i - k = (i - (k + 1)) + 1 := by omega
      rw [he, List.getElem?_cons_succ] at hr
      simp only [indexRows, List.filterMap_cons]
      cases hgk : g k s with
      | none => exact ih (k + 1) i r (by omega) hr
      | some b =>
        have hπ : π b = (k : Int) := hg k s b hgk
        rw [List.countP_cons, ih (k + 1) i r (by omega) hr]
        have hbeq : (π b == (i : Int)) = false := by
          rw [hπ, beq_eq_false_iff_ne]
          intro hcontra
          have : k = i := by exact_mod_cast hcontra
          omega
        simp [hbeq]

theorem countP_rowFindings (rule : Row → Option Finding) (q : Finding → Bool)
    (rs : List Row) (i : Nat) (r : Row) (hr : rs[i]? = some r) :
    (rowFindings rule rs).countP (fun f => f.row_index == (i : Int) && q f)
      = (match rule r with
         | some f => (if q { f with row_index := (i : Int) } then 1 else 0)
         | none => 0) := by
  have hg : ∀ (j : Nat) (s : Row) (b : Finding),
      ((rule s).map (fun f => { f with row_index := (j : Int) })) = some b →
      b.row_index = (j : Int) := by
    intro j s b hb
    rcases Option.map_eq_some'.mp hb with ⟨f, _, rfl⟩
    rfl
  have h := countP_indexedAux (fun f => f.row_index)
    (fun j s => (rule s).map (fun f => { f with row_index := (j : Int) })) hg q rs 0 i r
    (Nat.zero_le _) (by simpa using hr)
  rw [rowFindings, indexedFilterMap]
  rw [h]
  cases hrr : rule r <;> simp [hrr]

theorem countP_rowFindingsSR (rule : Row → Option FindingSR) (q : FindingSR → Bool)
    (rs : List Row) (i : Nat) (r : Row) (hr : rs[i]? = some r) :
    (rowFindingsSR rule rs).countP (fun f => f.row_index == (i : Int) && q f)
      = (match rule r with
         | some f => (if q { f with row_index := (i : Int) } then 1 else 0)
         | none => 0) := by
  have hg : ∀ (j : Nat) (s : Row) (b : FindingSR),
      ((rule s).map (fun f => { f with row_index := (j : Int) })) = some b →
      b.row_index = (j : Int) := by
    intro j s b hb
    rcases Option.map_eq_some'.mp hb with ⟨f, _, rfl⟩
    rfl
  have h := countP_indexedAux (fun f => f.row_index)
    (fun j s => (rule s).map (fun f => { f with row_index := (j : Int) })) hg q rs 0 i r
    (Nat.zero_le _) (by simpa using hr)
  rw [rowFindingsSR, indexedFilterMap]
  rw [h]
  cases hrr : rule r <;> simp [hrr]

theorem mem_rowFindings {rule : Row → Option Finding} {rs : List Row} {f : Finding}
    (h : f ∈ rowFindings rule rs) :
    ∃ (i : Nat) (r : Row) (f0 : Finding),
      rs[i]? = some r ∧ rule r = some f0 ∧ f = { f0 with row_index := (i : Int) } := by
  obtain ⟨p, hp, hgp⟩ := List.mem_filterMap.mp h
  obtain ⟨_, hidx⟩ := mem_indexRows hp
  rcases Option.map_eq_some'.mp hgp with ⟨f0, hf0, rfl⟩
  exact ⟨p.1, p.2, f0, by simpa using hidx, hf0, rfl⟩

theorem mem_rowFindingsSR {rule : Row → Option FindingSR} {rs : List Row} {f : FindingSR}
    (h : f ∈ rowFindingsSR rule rs) :
    ∃ (i : Nat) (r : Row) (f0 : FindingSR),
      rs[i]? = some r ∧ rule r = some f0 ∧ f = { f0 with row_index := (i : Int) } := by
  obtain ⟨p, hp, hgp⟩ := List.mem_filterMap.mp h
  obtain ⟨_, hidx⟩ := mem_indexRows hp
  rcases Option.map_eq_some'.mp hgp with ⟨f0, hf0, rfl⟩
  exact ⟨p.1, p.2, f0, by simpa using hidx, hf0, rfl⟩

theorem rowFindings_nonneg {rule : Row → Option Finding} {rs : List Row} :
    ∀ f ∈ rowFindings rule rs, 0 ≤ f.row_index := by
  intro f hf
  obtain ⟨i, r, f0, _, _, rfl⟩ := mem_rowFindings hf
  exact Int.ofNat_nonneg i

theorem rowFindings_ruleId {rule : Row → Option Finding} {rs : List Row} {R : String}
    (h : ∀ r f0, rule r = some f0 → f0.rule_id = R) :
    ∀ f ∈ rowFindings rule rs, f.rule_id = R := by
  intro f hf
  obtain ⟨i, r, f0, _, hr0, rfl⟩ := mem_rowFindings hf
  exact h r f0 hr0

/-- A block whose findings all carry rule id `R0` contributes nothing to
a count keyed on a different rule id `R`. -/
theorem countP_atRowRule_ne {l : List Finding} {R0 : String}
    (hl : ∀ f ∈ l, f.rule_id = R0) {R : String} (hne : R0 ≠ R) (i : Nat)
    (q : Finding → Bool) : l.countP (atRowRule i R q) = 0 := by
  refine List.countP_eq_zero.mpr ?_
  intro f hf
  have h0 := hl f hf
  simp [atRowRule, h0, hne]

/-- A dataset-level finding (row_index -1) contributes nothing to a
count keyed on a row position. -/
theorem countP_atRowRule_neg {f0 : Finding} (h : f0.row_index = -1) (i : Nat)
    (R : String) (q : Finding → Bool) : [f0].countP (atRowRule i R q) = 0 := by
  have hne : (f0.row_index == (i : Int)) = false := by
    rw [h, beq_eq_false_iff_ne]
    omega
  simp [atRowRule, hne]

/-! ### Bridging lemmas -/

theorem parseIsoDate_castUtf8 {v : Value} {d : Date} (h : parseIsoDate v = some d) :
    ∃ t, castUtf8 v = some t ∧ parseDateStr t = some d := by
  cases v with
  | null => simp [parseIsoDate, castUtf8] at h
  | str s => exact ⟨s, rfl, by simpa [parseIsoDate, castUtf8] using h⟩
  | int n => exact ⟨toString n, rfl, by simpa [parseIsoDate, castUtf8] using h⟩

theorem isNotNull_of_castUtf8 {v : Value} {t : String} (h : castUtf8 v = some t) :
    v.isNotNull = true := by
  cases v with
  | null => simp [castUtf8] at h
  | str s => rfl
  | int n => rfl

theorem requireColumns_nil {df : DataFrame} {cols : List String} {d : String}
    (h : missingCols df cols = []) : requireColumns df cols d = [] := by
  simp [requireColumns, h]

theorem requireColumns_cons {df : DataFrame} {cols : List String} {d : String}
    (h : missingCols df cols ≠ []) :
    requireColumns df cols d =
      [datasetLevelFinding ("SDTM_" ++ d ++ "_000") "CRIT" d
        (String.intercalate "," (missingCols df cols))
        ("Missing required columns for " ++ d ++ ": ["
          ++ String.intercalate ", " (missingCols df cols) ++ "]")] := by
  have : (missingCols df cols).isEmpty = false := by
    cases hm : missingCols df cols with
    | nil => exact absurd hm h
    | cons a l => rfl
  simp [requireColumns, this]

theorem minD_key_le_left (a b : Date) : (minD a b).key ≤ a.key := by
  unfold minD; split <;> omega

theorem minD_key_le_right (a b : Date) : (minD a b).key ≤ b.key := by
  unfold minD; split <;> omega

theorem maxD_key_ge_left (a b : Date) : a.key ≤ (maxD a b).key := by
  unfold maxD; split <;> omega

theorem maxD_key_ge_right (a b : Date) : b.key ≤ (maxD a b).key := by
  unfold maxD; split <;> omega

theorem minD_cases (a b : Date) : minD a b = a ∨ minD a b = b := by
  unfold minD; split
  · exact Or.inl rfl
  · exact Or.inr rfl

theorem maxD_cases (a b : Date) : maxD a b = a ∨ maxD a b = b := by
  unfold maxD; split
  · exact Or.inl rfl
  · exact Or.inr rfl

theorem foldl_minD_mem : ∀ (ds : List Date) (d : Date), ds.foldl minD d ∈ d :: ds := by
  intro ds
  induction ds with
  | nil => intro d; simp
  | cons e ds ih =>
    intro d
    have h := ih (minD d e)
    rcases List.mem_cons.mp h with h1 | h1
    · rcases minD_cases d e with h2 | h2
      · simp only [List.foldl_cons]
        rw [h1, h2]; exact List.mem_cons_self _ _
      · simp only [List.foldl_cons]
        rw [h1, h2]
        exact List.mem_cons_of_mem _ (List.mem_cons_self _ _)
    · simp only [List.foldl_cons]
      exact List.mem_cons_of_mem _ (List.mem_cons_of_mem _ h1)

theorem foldl_minD_le : ∀ (ds : List Date) (d x : Date), x ∈ d :: ds →
    (ds.foldl minD d).key ≤ x.key := by
  intro ds
  induction ds with
  | nil =>
    intro d x hx
    rcases List.mem_cons.mp hx with h | h
    · subst h; simp
    · simp at h
  | cons e ds ih =>
    intro d x hx
    simp only [List.foldl_cons]
    have hhead : (ds.foldl minD (minD d e)).key ≤ (minD d e).key :=
      ih (minD d e) (minD d e) (List.mem_cons_self _ _)
    rcases List.mem_cons.mp hx with h | h
    · subst h
      exact Nat.le_trans hhead (minD_key_le_left _ _)
    · rcases List.mem_cons.mp h with h1 | h1
      · subst h1
        exact Nat.le_trans hhead (minD_key_le_right _ _)
      · exact ih (minD d e) x (List.mem_cons_of_mem _ h1)

theorem foldl_maxD_mem : ∀ (ds : List Date) (d : Date), ds.foldl maxD d ∈ d :: ds := by
  intro ds
  induction ds with
  | nil => intro d; simp
  | cons e ds ih =>
    intro d
    have h := ih (maxD d e)
    rcases List.mem_cons.mp h with h1 | h1
    · rcases maxD_cases d e with h2 | h2
      · simp only [List.foldl_cons]
        rw [h1, h2]; exact List.mem_cons_self _ _
      · simp only [List.foldl_cons]
        rw [h1, h2]
        exact List.mem_cons_of_mem _ (List.mem_cons_self _ _)
    · simp only [List.foldl_cons]
      exact List.mem_cons_of_mem _ (List.mem_cons_of_mem _ h1)

theorem foldl_maxD_ge : ∀ (ds : List Date) (d x : Date), x ∈ d :: ds →
    x.key ≤ (ds.foldl maxD d).key := by
  intro ds
  induction ds with
  | nil =>
    intro d x hx
    rcases List.mem_cons.mp hx with h | h
    · subst h; simp
    · simp at h
  | cons e ds ih =>
    intro d x hx
    simp only [List.foldl_cons]
    have hhead : (maxD d e).key ≤ (ds.foldl maxD (maxD d e)).key :=
      ih (maxD d e) (maxD d e) (List.mem_cons_self _ _)
    rcases List.mem_cons.mp hx with h | h
    · subst h
      exact Nat.le_trans (maxD_key_ge_left _ _) hhead
    · rcases List.mem_cons.mp h with h1 | h1
      · subst h1
        exact Nat.le_trans (maxD_key_ge_right _ _) hhead
      · exact ih (maxD d e) x (List.mem_cons_of_mem _ h1)

/-- The per-subject range is the minimum and maximum of the parsed
anchor dates. -/
theorem vsRangeFor_min_max {vs : DataFrame} {s : String} {lo hi : Date}
    (h : vsRangeFor vs s = some (lo, hi)) :
    lo ∈ vsDatesFor vs s ∧ hi ∈ vsDatesFor vs s ∧
      ∀ x ∈ vsDatesFor vs s, lo.key ≤ x.key ∧ x.key ≤ hi.key := by
  unfold vsRangeFor at h
  cases hds : vsDatesFor vs s with
  | nil => rw [hds] at h; simp at h
  | cons d ds =>
    rw [hds] at h
    simp only [Option.some.injEq, Prod.mk.injEq] at h
    obtain ⟨hlo, hhi⟩ := h
    refine ⟨?_, ?_, ?_⟩
    · rw [← hlo]; exact foldl_minD_mem ds d
    · rw [← hhi]; exact foldl_maxD_mem ds d
    · intro x hx
      exact ⟨hlo ▸ foldl_minD_le ds d x hx, hhi ▸ foldl_maxD_ge ds d x hx⟩

/-- The polars join key semantics, in claim language: a dependent key
matches iff it is a non-null string present among the anchor ids. -/
theorem joinAny_iff (anchor : DataFrame) (u : Option String) :
    joinAny anchor u = true ↔
      ∃ s, u = some s ∧ ∃ r2 ∈ anchor.rows, castUtf8 (cellOf r2 "USUBJID") = some s := by
  cases u with
  | none => simp [joinAny]
  | some s =>
    simp only [joinAny, List.any_eq_true, Option.some.injEq]
    constructor
    · rintro ⟨r2, hr2, hb⟩
      exact ⟨s, rfl, r2, hr2, by simpa [beq_iff_eq] using hb⟩
    · rintro ⟨s2, hs2, r2, hr2, hb⟩
      subst hs2
      exact ⟨r2, hr2, by simpa [beq_iff_eq] using hb⟩

/-! ### Gate helper lemmas -/

theorem validate_vs_gate {t : DataFrame} (h : missingCols t VS_REQUIRED ≠ []) :
    validate_vs t = requireColumns t VS_REQUIRED "VS" := by
  simp only [validate_vs]
  rw [requireColumns_cons h]
  simp

theorem validate_ae_gate {t : DataFrame} (h : missingCols t AE_REQUIRED ≠ []) :
    validate_ae t = requireColumns t AE_REQUIRED "AE" := by
  simp only [validate_ae]
  rw [requireColumns_cons h]
  simp

theorem validate_cm_gate {t : DataFrame} (h : missingCols t CM_REQUIRED ≠ []) :
    validate_cm t = requireColumns t CM_REQUIRED "CM" := by
  simp only [validate_cm]
  rw [requireColumns_cons h]
  simp

theorem validate_dm_gate {t : DataFrame} (h : missingCols t DM_REQUIRED ≠ []) :
    validate_dm t = requireColumns t DM_REQUIRED "DM" := by
  simp only [validate_dm]
  rw [requireColumns_cons h]
  simp

/-- C1: every per-domain validator of domain_validation.py, on a table
missing at least one mandatory column of its domain, returns exactly the
one dataset-level finding of the column gate: severity CRIT,
row_index -1, field the comma-joined missing columns; no other rule of
the domain contributes any finding (the output list is a singleton). -/
theorem claim1 (t : DataFrame) :
    (missingCols t VS_REQUIRED ≠ [] →
      validate_vs t = requireColumns t VS_REQUIRED "VS" ∧
      (validate_vs t).length = 1 ∧
      ∀ f ∈ validate_vs t, f.severity = "CRIT" ∧ f.row_index = -1 ∧
        f.field = String.intercalate "," (missingCols t VS_REQUIRED)) ∧
    (missingCols t AE_REQUIRED ≠ [] →
      validate_ae t = requireColumns t AE_REQUIRED "AE" ∧
      (validate_ae t).length = 1 ∧
      ∀ f ∈ validate_ae t, f.severity = "CRIT" ∧ f.row_index = -1 ∧
        f.field = String.intercalate "," (missingCols t AE_REQUIRED)) ∧
    (missingCols t CM_REQUIRED ≠ [] →
      validate_cm t = requireColumns t CM_REQUIRED "CM" ∧
      (validate_cm t).length = 1 ∧
      ∀ f ∈ validate_cm t, f.severity = "CRIT" ∧ f.row_index = -1 ∧
        f.field = String.intercalate "," (missingCols t CM_REQUIRED)) ∧
    (missingCols t DM_REQUIRED ≠ [] →
      validate_dm t = requireColumns t DM_REQUIRED "DM" ∧
      (validate_dm t).length = 1 ∧
      ∀ f ∈ validate_dm t, f.severity = "CRIT" ∧ f.row_index = -1 ∧
        f.field = String.intercalate "," (missingCols t DM_REQUIRED)) := by
  refine ⟨?_, ?_, ?_, ?_⟩
  · intro h
    have he := validate_vs_gate h
    rw [he, requireColumns_cons h]
    refine ⟨rfl, rfl, ?_⟩
    intro f hf
    simp only [List.mem_singleton] at hf
    subst hf
    exact ⟨rfl, rfl, rfl⟩
  · intro h
    have he := validate_ae_gate h
    rw [he, requireColumns_cons h]
    refine ⟨rfl, rfl, ?_⟩
    intro f hf
    simp only [List.mem_singleton] at hf
    subst hf
    exact ⟨rfl, rfl, rfl⟩
  · intro h
    have he := validate_cm_gate h
    rw [he, requireColumns_cons h]
    refine ⟨rfl, rfl, ?_⟩
    intro f hf
    simp only [List.mem_singleton] at hf
    subst hf
    exact ⟨rfl, rfl, rfl⟩
  · intro h
    have he := validate_dm_gate h
    rw [he, requireColumns_cons h]
    refine ⟨rfl, rfl, ?_⟩
    intro f hf
    simp only [List.mem_singleton] at hf
    subst hf
    exact ⟨rfl, rfl, rfl⟩

/-- Witness for C1 at the empty table, which misses every mandatory
column of every domain. -/
theorem claim1_witness :
    validate_vs (⟨[], []⟩ : DataFrame) = requireColumns ⟨[], []⟩ VS_REQUIRED "VS" ∧
    validate_ae (⟨[], []⟩ : DataFrame) = requireColumns ⟨[], []⟩ AE_REQUIRED "AE" ∧
    validate_cm (⟨[], []⟩ : DataFrame) = requireColumns ⟨[], []⟩ CM_REQUIRED "CM" ∧
    validate_dm (⟨[], []⟩ : DataFrame) = requireColumns ⟨[], []⟩ DM_REQUIRED "DM" := by
  have h := claim1 ⟨[], []⟩
  exact ⟨(h.1 (by decide)).1, (h.2.1 (by decide)).1, (h.2.2.1 (by decide)).1,
    (h.2.2.2 (by decide)).1⟩

/-- C2 counterexample: concatenating an empty list of findings tables
through DatasetJsonIO.concat_findings yields the 7-column
DatasetJsonIO schema, not the 9-column domain_validation schema. -/
theorem claim2_counterexample :
    (DJ_concat_findings []).cols = DJ_FINDINGS_COLS ∧
    DJ_FINDINGS_COLS ≠ FINDINGS_COLS ∧
    DJ_FINDINGS_COLS.length = 7 ∧ FINDINGS_COLS.length = 9 := by
  exact ⟨rfl, by decide, by decide, by decide⟩

/-- C2 (amended): every findings table a domain_validation validator or
cross-domain check produces has exactly the declared 9 columns, and
concatenating a nonempty list of 9-column findings tables through
DatasetJsonIO.concat_findings preserves that schema with row count the
sum of the inputs; concatenating the empty list instead returns the
7-column DatasetJsonIO findings schema. -/
theorem claim2 :
    (∀ t, (findingsDF (validate_vs t)).cols = FINDINGS_COLS) ∧
    (∀ t, (findingsDF (validate_ae t)).cols = FINDINGS_COLS) ∧
    (∀ t, (findingsDF (validate_cm t)).cols = FINDINGS_COLS) ∧
    (∀ t, (findingsDF (validate_dm t)).cols = FINDINGS_COLS) ∧
    (∀ dm other dom, (findingsDF (validate_dm_link dm other dom)).cols = FINDINGS_COLS) ∧
    (∀ vs ae, (findingsDF (validate_vs_ae vs ae)).cols = FINDINGS_COLS) ∧
    (∀ parts : List DataFrame, parts ≠ [] → (∀ p ∈ parts, p.cols = FINDINGS_COLS) →
      (DJ_concat_findings parts).cols = FINDINGS_COLS ∧
      (DJ_concat_findings parts).rows.length = (parts.map (fun p => p.rows.length)).sum) ∧
    (DJ_concat_findings []).cols = DJ_FINDINGS_COLS := by
  refine ⟨fun _ => rfl, fun _ => rfl, fun _ => rfl, fun _ => rfl, fun _ _ _ => rfl,
    fun _ _ => rfl, ?_, rfl⟩
  intro parts hne hcols
  have hfilter : parts.filter (fun p => 0 < p.cols.length) = parts := by
    apply List.filter_eq_self.mpr
    intro p hp
    rw [hcols p hp]
    decide
  have hempty : parts.isEmpty = false := by
    cases parts with
    | nil => exact absurd rfl hne
    | cons p ps => rfl
  have h1 : DJ_concat_findings parts = concatRelaxed parts := by
    simp only [DJ_concat_findings]
    rw [hfilter, hempty]
    simp
  rw [h1]
  constructor
  · cases parts with
    | nil => exact absurd rfl hne
    | cons p ps =>
      have hp := hcols p (List.mem_cons_self _ _)
      simp [concatRelaxed, hp]
  · simp only [concatRelaxed]
    rw [List.length_flatten, List.map_map]
    rfl

/-- Witness for C2 on a concrete two-element list of findings tables. -/
theorem claim2_witness :
    (DJ_concat_findings [findingsDF [], findingsDF [vsAdvisory]]).cols = FINDINGS_COLS ∧
    (DJ_concat_findings [findingsDF [], findingsDF [vsAdvisory]]).rows.length = 1 := by
  have hcols : ∀ p ∈ [findingsDF [], findingsDF [vsAdvisory]], p.cols = FINDINGS_COLS := by
    intro p hp
    simp only [List.mem_cons] at hp
    rcases hp with rfl | rfl | hp
    · rfl
    · rfl
    · simp at hp
  have h := (claim2.2.2.2.2.2.2.1) [findingsDF [], findingsDF [vsAdvisory]] (by simp) hcols
  exact ⟨h.1, by rw [h.2]; rfl⟩

/-! ### validate_dm_link helper lemmas -/

theorem validate_dm_link_eq {dm other : DataFrame} {dom : String}
    (hdm : dm.hasCol "USUBJID" = true) (hot : other.hasCol "USUBJID" = true) :
    validate_dm_link dm other dom = rowFindings (dmLinkRow dm dom) other.rows := by
  simp [validate_dm_link, hdm, hot]

theorem validate_dm_link_countP {dm other : DataFrame} {dom : String} {i : Nat} {r : Row}
    (hdm : dm.hasCol "USUBJID" = true) (hot : other.hasCol "USUBJID" = true)
    (hr : other.rows[i]? = some r) :
    (validate_dm_link dm other dom).countP (fun f => f.row_index == (i : Int)) =
      if joinAny dm (castUtf8 (cellOf r "USUBJID")) then 0 else 1 := by
  rw [validate_dm_link_eq hdm hot]
  have hfun : (fun f : Finding => f.row_index == (i : Int) && (fun _ => true) f) =
      (fun f : Finding => f.row_index == (i : Int)) := by
    funext f; simp
  rw [← hfun, countP_rowFindings _ _ _ _ _ hr]
  cases hj : joinAny dm (castUtf8 (cellOf r "USUBJID")) <;> simp [dmLinkRow, hj]

theorem validate_dm_link_mem {dm other : DataFrame} {dom : String}
    (hdm : dm.hasCol "USUBJID" = true) (hot : other.hasCol "USUBJID" = true) :
    ∀ f ∈ validate_dm_link dm other dom,
      f.finding_type = "CROSS_DOMAIN" ∧ f.severity = "HIGH" ∧
      f.rule_id = "X_DMLINK_" ++ dom ++ "_001" ∧
      ∃ (j : Nat) (rj : Row), other.rows[j]? = some rj ∧ f.row_index = (j : Int) ∧
        f.evidence = castUtf8 (cellOf rj "USUBJID") ∧
        joinAny dm (castUtf8 (cellOf rj "USUBJID")) = false := by
  intro f hf
  rw [validate_dm_link_eq hdm hot] at hf
  obtain ⟨j, rj, f0, hrj, hf0, rfl⟩ := mem_rowFindings hf
  simp only [dmLinkRow] at hf0
  cases hj : joinAny dm (castUtf8 (cellOf rj "USUBJID")) with
  | true => rw [hj] at hf0; simp at hf0
  | false =>
    rw [hj] at hf0
    simp only [if_neg Bool.false_ne_true, Option.some.injEq] at hf0
    subst hf0
    exact ⟨rfl, rfl, rfl, j, rj, hrj, rfl, rfl, hj⟩

/-- C3: with USUBJID on both sides, validate_dm_link reports exactly the
dependent rows whose string-cast id matches no string-cast DM id under
the exact, non-null join (no trimming, no case folding): one
CROSS_DOMAIN HIGH finding per orphan row, row_index the dependent row
position, evidence the orphan id; anchor ids A,B,C against dependent
ids A,D give exactly one finding with evidence D, and ids differing
from an anchor id only by surrounding whitespace or case are reported. -/
theorem claim3 :
    (∀ (dm other : DataFrame) (dom : String) (i : Nat) (r : Row),
      dm.hasCol "USUBJID" = true → other.hasCol "USUBJID" = true →
      other.rows[i]? = some r →
      ((validate_dm_link dm other dom).countP (fun f => f.row_index == (i : Int)) =
          if joinAny dm (castUtf8 (cellOf r "USUBJID")) then 0 else 1) ∧
      (joinAny dm (castUtf8 (cellOf r "USUBJID")) = true ↔
        ∃ s, castUtf8 (cellOf r "USUBJID") = some s ∧
          ∃ r2 ∈ dm.rows, castUtf8 (cellOf r2 "USUBJID") = some s)) ∧
    (∀ (dm other : DataFrame) (dom : String),
      dm.hasCol "USUBJID" = true → other.hasCol "USUBJID" = true →
      ∀ f ∈ validate_dm_link dm other dom,
        f.finding_type = "CROSS_DOMAIN" ∧ f.severity = "HIGH" ∧
        f.rule_id = "X_DMLINK_" ++ dom ++ "_001" ∧
        ∃ (j : Nat) (rj : Row), other.rows[j]? = some rj ∧ f.row_index = (j : Int) ∧
          f.evidence = castUtf8 (cellOf rj "USUBJID") ∧
          joinAny dm (castUtf8 (cellOf rj "USUBJID")) = false) ∧
    ((validate_dm_link dmABC depAD "AE").map (fun f => (f.row_index, f.evidence)) =
      [((1 : Int), some "D")]) ∧
    ((validate_dm_link dmOneA depDrift "AE").map (fun f => (f.row_index, f.evidence)) =
      [((0 : Int), some " A"), ((1 : Int), some "a")]) := by
  refine ⟨?_, ?_, by decide, by decide⟩
  · intro dm other dom i r hdm hot hr
    exact ⟨validate_dm_link_countP hdm hot hr, joinAny_iff dm _⟩
  · intro dm other dom hdm hot
    exact validate_dm_link_mem hdm hot

/-- Witness for C3: the orphan D in the A,B,C / A,D example is counted
exactly once at dependent row 1. -/
theorem claim3_witness :
    (validate_dm_link dmABC depAD "AE").countP (fun f => f.row_index == ((1 : Nat) : Int)) = 1 := by
  have h := (claim3.1 dmABC depAD "AE" 1 [("USUBJID", Value.str "D")] rfl rfl rfl).1
  rw [h]
  decide

/-- C10: a null dependent USUBJID never matches in the anti-join, even
against a DM table that itself contains a null id, so each null-id
dependent row is reported as exactly one CROSS_DOMAIN HIGH orphan. -/
theorem claim10 (dm other : DataFrame) (dom : String) (i : Nat) (r : Row)
    (hdm : dm.hasCol "USUBJID" = true) (hot : other.hasCol "USUBJID" = true)
    (hr : other.rows[i]? = some r) (hnull : cellOf r "USUBJID" = Value.null) :
    (validate_dm_link dm other dom).countP (fun f => f.row_index == (i : Int)) = 1 ∧
    ∀ f ∈ validate_dm_link dm other dom,
      f.finding_type = "CROSS_DOMAIN" ∧ f.severity = "HIGH" := by
  constructor
  · rw [validate_dm_link_countP hdm hot hr, hnull]
    rfl
  · intro f hf
    have h := validate_dm_link_mem hdm hot f hf
    exact ⟨h.1, h.2.1⟩

/-- Witness for C10: a null dependent id is flagged although the DM
anchor also holds a null id. -/
theorem claim10_witness :
    (validate_dm_link dmNullT depNullT "AE").countP (fun f => f.row_index == ((0 : Nat) : Int)) = 1 := by
  exact (claim10 dmNullT depNullT "AE" 0 [("USUBJID", Value.null)] rfl rfl rfl rfl).1

/-! ### validate_vs_ae helper lemmas -/

theorem validate_vs_ae_eq {vs ae : DataFrame}
    (h1 : vs.hasCol "USUBJID" = true) (h2 : vs.hasCol "VSDTC" = true)
    (h3 : ae.hasCol "USUBJID" = true) (h4 : ae.hasCol "AESTDTC" = true) :
    validate_vs_ae vs ae =
      rowFindings (vsaeOrphanRow vs) ae.rows ++ rowFindings (vsaeRangeRow vs) ae.rows := by
  simp [validate_vs_ae, h1, h2, h3, h4]

theorem vsaeOrphanRow_ruleId (vs : DataFrame) :
    ∀ r f0, vsaeOrphanRow vs r = some f0 → f0.rule_id = "X_VSAE_001" := by
  intro r f0 h
  simp only [vsaeOrphanRow] at h
  cases hj : joinAny vs (castUtf8 (cellOf r "USUBJID")) with
  | true => rw [hj] at h; simp at h
  | false =>
    rw [hj] at h
    simp only [if_neg Bool.false_ne_true, Option.some.injEq] at h
    rw [← h]

/-- C4: in the VS/AE temporal containment check the anchor range of a
subject is the minimum and maximum of its parsed VS dates; an AE row of
that subject with a parsed start date strictly outside the closed range
yields exactly one X_VSAE_002 finding with evidence
date vs [min, max]; a date inside the range yields none; a subject
with zero parseable VS dates yields no containment finding at all. -/
theorem claim4 (vs ae : DataFrame) (i : Nat) (r : Row) (s : String) (lo hi : Date)
    (h1 : vs.hasCol "USUBJID" = true) (h2 : vs.hasCol "VSDTC" = true)
    (h3 : ae.hasCol "USUBJID" = true) (h4 : ae.hasCol "AESTDTC" = true)
    (hr : ae.rows[i]? = some r) (hs : castUtf8 (cellOf r "USUBJID") = some s) :
    (vsRangeFor vs s = some (lo, hi) →
      (lo ∈ vsDatesFor vs s ∧ hi ∈ vsDatesFor vs s ∧
        ∀ x ∈ vsDatesFor vs s, lo.key ≤ x.key ∧ x.key ≤ hi.key) ∧
      (∀ d : Date, parseIsoDate (cellOf r "AESTDTC") = some d →
        (d.key < lo.key ∨ hi.key < d.key →
          (validate_vs_ae vs ae).countP (atRowRule i "X_VSAE_002" (fun _ => true)) = 1 ∧
          (validate_vs_ae vs ae).countP (atRowRule i "X_VSAE_002" (fun f =>
            f.evidence == some (((castUtf8 (cellOf r "AESTDTC")).getD "")
              ++ " vs [" ++ dateStr lo ++ ", " ++ dateStr hi ++ "]"))) = 1) ∧
        (lo.key ≤ d.key → d.key ≤ hi.key →
          (validate_vs_ae vs ae).countP (atRowRule i "X_VSAE_002" (fun _ => true)) = 0))) ∧
    (vsRangeFor vs s = none →
      (validate_vs_ae vs ae).countP (atRowRule i "X_VSAE_002" (fun _ => true)) = 0) := by
  have heq := validate_vs_ae_eq h1 h2 h3 h4
  have horph : ∀ q : Finding → Bool,
      (rowFindings (vsaeOrphanRow vs) ae.rows).countP (atRowRule i "X_VSAE_002" q) = 0 := by
    intro q
    exact countP_atRowRule_ne (rowFindings_ruleId (vsaeOrphanRow_ruleId vs)) (by decide) i q
  constructor
  · intro hrange
    refine ⟨vsRangeFor_min_max hrange, ?_⟩
    intro d hd
    obtain ⟨t, ht, _⟩ := parseIsoDate_castUtf8 hd
    constructor
    · intro hout
      constructor
      · rw [heq, List.countP_append, horph, Nat.zero_add]
        unfold atRowRule
        rw [countP_rowFindings _ _ _ _ _ hr]
        simp only [vsaeRangeRow, hs, hrange, hd]
        rw [if_pos hout]
        simp
      · rw [heq, List.countP_append, horph, Nat.zero_add]
        unfold atRowRule
        rw [countP_rowFindings _ _ _ _ _ hr]
        simp only [vsaeRangeRow, hs, hrange, hd]
        rw [if_pos hout]
        simp [ht]
    · intro hlo hhi
      rw [heq, List.countP_append, horph, Nat.zero_add]
      unfold atRowRule
      rw [countP_rowFindings _ _ _ _ _ hr]
      simp only [vsaeRangeRow, hs, hrange, hd]
      rw [if_neg (by omega)]
  · intro hrange
    rw [heq, List.countP_append, horph, Nat.zero_add]
    unfold atRowRule
    rw [countP_rowFindings _ _ _ _ _ hr]
    simp only [vsaeRangeRow, hs, hrange]

/-- Witness for C4 on the spec example: subject A with anchor range
2024-01-01 .. 2024-03-01 and AE start date 2024-05-01. -/
theorem claim4_witness :
    (validate_vs_ae vsAnchorW aeDepW).countP (atRowRule 0 "X_VSAE_002" (fun _ => true)) = 1 := by
  have h := claim4 vsAnchorW aeDepW 0
    [("USUBJID", Value.str "A"), ("AESTDTC", Value.str "2024-05-01")] "A"
    ⟨2024, 1, 1⟩ ⟨2024, 3, 1⟩ rfl rfl rfl rfl rfl rfl
  exact (((h.1 (by decide)).2 ⟨2024, 5, 1⟩ (by decide)).1 (by decide)).1

/-! ### Rule-id constancy of the per-rule blocks -/

theorem vsRule1Row_ruleId : ∀ r f0, vsRule1Row r = some f0 → f0.rule_id = "SDTM_VS_001" := by
  intro r f0 h
  simp only [vsRule1Row] at h
  split at h
  · rw [← Option.some.inj h]
  · simp at h

theorem vsRule2Row_ruleId : ∀ r f0, vsRule2Row r = some f0 → f0.rule_id = "SDTM_VS_002" := by
  intro r f0 h
  simp only [vsRule2Row] at h
  split at h
  · simp at h
  · split at h
    · rw [← Option.some.inj h]
    · simp at h

theorem vsRule3Row_ruleId : ∀ r f0, vsRule3Row r = some f0 → f0.rule_id = "SDTM_VS_003" := by
  intro r f0 h
  simp only [vsRule3Row] at h
  split at h
  · rw [← Option.some.inj h]
  · simp at h

theorem vsRule4Row_ruleId : ∀ r f0, vsRule4Row r = some f0 → f0.rule_id = "SDTM_VS_004" := by
  intro r f0 h
  simp only [vsRule4Row] at h
  split at h
  · rw [← Option.some.inj h]
  · simp at h

theorem vsRule5Row_ruleId : ∀ r f0, vsRule5Row r = some f0 → f0.rule_id = "SDTM_VS_005" := by
  intro r f0 h
  simp only [vsRule5Row] at h
  split at h
  · rw [← Option.some.inj h]
  · simp at h

theorem aeRule1Row_ruleId : ∀ r f0, aeRule1Row r = some f0 → f0.rule_id = "SDTM_AE_001" := by
  intro r f0 h
  simp only [aeRule1Row] at h
  split at h
  · rw [← Option.some.inj h]
  · simp at h

theorem aeRule2Row_ruleId : ∀ r f0, aeRule2Row r = some f0 → f0.rule_id = "SDTM_AE_002" := by
  intro r f0 h
  simp only [aeRule2Row] at h
  split at h
  · rw [← Option.some.inj h]
  · simp at h

theorem aeRule3Row_ruleId : ∀ r f0, aeRule3Row r = some f0 → f0.rule_id = "SDTM_AE_003" := by
  intro r f0 h
  simp only [aeRule3Row] at h
  split at h
  · rw [← Option.some.inj h]
  · simp at h

theorem aeRule4Row_ruleId : ∀ r f0, aeRule4Row r = some f0 → f0.rule_id = "SDTM_AE_004" := by
  intro r f0 h
  simp only [aeRule4Row] at h
  split at h
  · split at h
    · rw [← Option.some.inj h]
    · simp at h
  · simp at h

theorem aeRule5Row_ruleId : ∀ r f0, aeRule5Row r = some f0 → f0.rule_id = "SDTM_AE_005" := by
  intro r f0 h
  simp only [aeRule5Row] at h
  split at h
  · simp at h
  · split at h
    · rw [← Option.some.inj h]
    · simp at h

theorem aeRule6Row_ruleId : ∀ r f0, aeRule6Row r = some f0 → f0.rule_id = "SDTM_AE_006" := by
  intro r f0 h
  simp only [aeRule6Row] at h
  split at h
  · simp at h
  · split at h
    · rw [← Option.some.inj h]
    · simp at h

theorem cmRule1Row_ruleId : ∀ r f0, cmRule1Row r = some f0 → f0.rule_id = "SDTM_CM_001" := by
  intro r f0 h
  simp only [cmRule1Row] at h
  split at h
  · rw [← Option.some.inj h]
  · simp at h

theorem cmRule2Row_ruleId : ∀ r f0, cmRule2Row r = some f0 → f0.rule_id = "SDTM_CM_002" := by
  intro r f0 h
  simp only [cmRule2Row] at h
  split at h
  · rw [← Option.some.inj h]
  · simp at h

theorem cmRule3Row_ruleId : ∀ r f0, cmRule3Row r = some f0 → f0.rule_id = "SDTM_CM_003" := by
  intro r f0 h
  simp only [cmRule3Row] at h
  split at h
  · rw [← Option.some.inj h]
  · simp at h

theorem cmRule4Row_ruleId : ∀ r f0, cmRule4Row r = some f0 → f0.rule_id = "SDTM_CM_004" := by
  intro r f0 h
  simp only [cmRule4Row] at h
  split at h
  · split at h
    · rw [← Option.some.inj h]
    · simp at h
  · simp at h

theorem dmRule1Row_ruleId : ∀ r f0, dmRule1Row r = some f0 → f0.rule_id = "SDTM_DM_001" := by
  intro r f0 h
  simp only [dmRule1Row] at h
  split at h
  · rw [← Option.some.inj h]
  · simp at h

theorem dmRule2Row_ruleId (allRows : List Row) :
    ∀ r f0, dmRule2Row allRows r = some f0 → f0.rule_id = "SDTM_DM_002" := by
  intro r f0 h
  simp only [dmRule2Row] at h
  split at h
  · simp at h
  · split at h
    · rw [← Option.some.inj h]
    · simp at h

theorem dmRule3Row_ruleId : ∀ r f0, dmRule3Row r = some f0 → f0.rule_id = "SDTM_DM_003" := by
  intro r f0 h
  simp only [dmRule3Row] at h
  split at h
  · simp at h
  · split at h
    · rw [← Option.some.inj h]
    · simp at h

theorem dmRule4Row_ruleId : ∀ r f0, dmRule4Row r = some f0 → f0.rule_id = "SDTM_DM_004" := by
  intro r f0 h
  simp only [dmRule4Row] at h
  split at h
  · simp at h
  · split at h
    · rw [← Option.some.inj h]
    · simp at h

theorem dmRule5Row_ruleId : ∀ r f0, dmRule5Row r = some f0 → f0.rule_id = "SDTM_DM_005" := by
  intro r f0 h
  simp only [dmRule5Row] at h
  split at h
  · rw [← Option.some.inj h]
  · simp at h

theorem dmRule6Row_ruleId : ∀ r f0, dmRule6Row r = some f0 → f0.rule_id = "SDTM_DM_006" := by
  intro r f0 h
  simp only [dmRule6Row] at h
  split at h
  · rw [← Option.some.inj h]
  · simp at h

theorem dmRule7Row_ruleId : ∀ r f0, dmRule7Row r = some f0 → f0.rule_id = "SDTM_DM_007" := by
  intro r f0 h
  simp only [dmRule7Row] at h
  split at h
  · rw [← Option.some.inj h]
  · simp at h

theorem dmRule8Row_ruleId : ∀ r f0, dmRule8Row r = some f0 → f0.rule_id = "SDTM_DM_008" := by
  intro r f0 h
  simp only [dmRule8Row] at h
  split at h
  · split at h
    · rw [← Option.some.inj h]
    · simp at h
  · simp at h

/-! ### Gate-passed decompositions of the validators -/

theorem validate_vs_eq {t : DataFrame} (h : missingCols t VS_REQUIRED = []) :
    validate_vs t =
      rowFindings vsRule1Row t.rows ++ rowFindings vsRule2Row t.rows
      ++ rowFindings vsRule3Row t.rows ++ rowFindings vsRule4Row t.rows
      ++ (if t.hasCol "VSORRESU" then rowFindings vsRule5Row t.rows else [vsAdvisory]) := by
  simp only [validate_vs]
  rw [requireColumns_nil h]
  simp

theorem validate_ae_eq {t : DataFrame} (h : missingCols t AE_REQUIRED = []) :
    validate_ae t =
      rowFindings aeRule1Row t.rows ++ rowFindings aeRule2Row t.rows
      ++ (if t.hasCol "AEENDTC" then rowFindings aeRule3Row t.rows else [])
      ++ (if t.hasCol "AEENDTC" then rowFindings aeRule4Row t.rows else [])
      ++ (if t.hasCol "AESER" then rowFindings aeRule5Row t.rows else [])
      ++ (if t.hasCol "AESEV" then rowFindings aeRule6Row t.rows else []) := by
  simp only [validate_ae]
  rw [requireColumns_nil h]
  simp

theorem validate_cm_eq {t : DataFrame} (h : missingCols t CM_REQUIRED = []) :
    validate_cm t =
      rowFindings cmRule1Row t.rows ++ rowFindings cmRule2Row t.rows
      ++ (if t.hasCol "CMENDTC" then rowFindings cmRule3Row t.rows else [])
      ++ (if t.hasCol "CMENDTC" then rowFindings cmRule4Row t.rows else []) := by
  simp only [validate_cm]
  rw [requireColumns_nil h]
  simp

theorem validate_dm_eq {t : DataFrame} (h : missingCols t DM_REQUIRED = []) :
    validate_dm t =
      rowFindings dmRule1Row t.rows
      ++ rowFindings (dmRule2Row t.rows) t.rows
      ++ (if t.hasCol "SEX" then rowFindings dmRule3Row t.rows else [])
      ++ (if t.hasCol "AGE" then rowFindings dmRule4Row t.rows else [])
      ++ (if t.hasCol "AGE" && t.hasCol "AGEU" then rowFindings dmRule5Row t.rows else [])
      ++ (if t.hasCol "RFSTDTC" then rowFindings dmRule6Row t.rows else [])
      ++ (if t.hasCol "RFENDTC" then rowFindings dmRule7Row t.rows else [])
      ++ (if t.hasCol "RFSTDTC" && t.hasCol "RFENDTC" then rowFindings dmRule8Row t.rows else []) := by
  simp only [validate_dm]
  rw [requireColumns_nil h]
  simp

/-- An optional-column block of a foreign rule contributes nothing. -/
theorem countP_atRowRule_if_ne {c : Bool} {l : List Finding} {R0 : String}
    (hl : ∀ f ∈ l, f.rule_id = R0) {R : String} (hne : R0 ≠ R) (i : Nat)
    (q : Finding → Bool) : (if c then l else []).countP (atRowRule i R q) = 0 := by
  cases c
  · rfl
  · simpa using countP_atRowRule_ne hl hne i q

/-! ### FindingSR counterparts and membership bridges -/

theorem rowFindingsSR_ruleId {rule : Row → Option FindingSR} {rs : List Row} {R : String}
    (h : ∀ r f0, rule r = some f0 → f0.rule_id = R) :
    ∀ f ∈ rowFindingsSR rule rs, f.rule_id = R := by
  intro f hf
  obtain ⟨i, r, f0, _, hr0, rfl⟩ := mem_rowFindingsSR hf
  exact h r f0 hr0

theorem countP_atRowRuleSR_ne {l : List FindingSR} {R0 : String}
    (hl : ∀ f ∈ l, f.rule_id = R0) {R : String} (hne : R0 ≠ R) (i : Nat)
    (q : FindingSR → Bool) : l.countP (atRowRuleSR i R q) = 0 := by
  refine List.countP_eq_zero.mpr ?_
  intro f hf
  have h0 := hl f hf
  simp [atRowRuleSR, h0, hne]

theorem countP_atRowRuleSR_if_ne {c : Bool} {l : List FindingSR} {R0 : String}
    (hl : ∀ f ∈ l, f.rule_id = R0) {R : String} (hne : R0 ≠ R) (i : Nat)
    (q : FindingSR → Bool) : (if c then l else []).countP (atRowRuleSR i R q) = 0 := by
  cases c
  · rfl
  · simpa using countP_atRowRuleSR_ne hl hne i q

theorem mem_if_rowFindings {c : Bool} {rule : Row → Option Finding} {rs : List Row}
    {f : Finding} (h : f ∈ (if c then rowFindings rule rs else [])) :
    f ∈ rowFindings rule rs := by
  cases c
  · simp at h
  · simpa using h

theorem mem_if_rowFindingsSR {c : Bool} {rule : Row → Option FindingSR} {rs : List Row}
    {f : FindingSR} (h : f ∈ (if c then rowFindingsSR rule rs else [])) :
    f ∈ rowFindingsSR rule rs := by
  cases c
  · simp at h
  · simpa using h

theorem contains_eq_true_of_mem {l : List String} {a : String} (h : a ∈ l) :
    l.contains a = true := by
  simpa using h

theorem contains_eq_false_of_not_mem {l : List String} {a : String} (h : a ∉ l) :
    l.contains a = false := by
  simpa using h

/-- A block of findings never at row_index -1 contributes nothing to a
dataset-level count. -/
theorem countP_negIdx_zero {l : List Finding} (hl : ∀ f ∈ l, 0 ≤ f.row_index) :
    l.countP (fun f => f.row_index == (-1 : Int)) = 0 := by
  refine List.countP_eq_zero.mpr ?_
  intro f hf
  have h0 := hl f hf
  simp only [beq_iff_eq]
  omega

/-- The if-wrapped variant of countP_negIdx_zero. -/
theorem countP_negIdx_if_zero {c : Bool} {l : List Finding} (hl : ∀ f ∈ l, 0 ≤ f.row_index) :
    (if c then l else []).countP (fun f => f.row_index == (-1 : Int)) = 0 := by
  cases c
  · rfl
  · simpa using countP_negIdx_zero hl

/-- Counting by bare rule id: a block of a different rule contributes 0. -/
theorem countP_ruleId_ne {l : List Finding} {R0 : String} (hl : ∀ f ∈ l, f.rule_id = R0)
    {R : String} (hne : R0 ≠ R) : l.countP (fun f => f.rule_id == R) = 0 := by
  refine List.countP_eq_zero.mpr ?_
  intro f hf
  simp [hl f hf, hne]

theorem countP_ruleId_if_ne {c : Bool} {l : List Finding} {R0 : String}
    (hl : ∀ f ∈ l, f.rule_id = R0) {R : String} (hne : R0 ≠ R) :
    (if c then l else []).countP (fun f => f.rule_id == R) = 0 := by
  cases c
  · rfl
  · simpa using countP_ruleId_ne hl hne

/-! ### C5: null versus unparseable values in format and numeric rules -/

/-- C5: in validate_vs, a null VSDTC never triggers the SDTM_VS_003 date
format rule and a present value failing the strict YYYY-MM-DD parse
triggers it exactly once; a null VSORRES never triggers the SDTM_VS_004
numeric rule and, under a known test code, a present result failing
decimal parsing after comma normalization triggers it exactly once. -/
theorem claim5 (t : DataFrame) (i : Nat) (r : Row)
    (hmiss : missingCols t VS_REQUIRED = []) (hr : t.rows[i]? = some r) :
    (cellOf r "VSDTC" = Value.null →
      (validate_vs t).countP (atRowRule i "SDTM_VS_003" (fun _ => true)) = 0) ∧
    ((cellOf r "VSDTC").isNotNull = true → parseIsoDate (cellOf r "VSDTC") = none →
      (validate_vs t).countP (atRowRule i "SDTM_VS_003" (fun _ => true)) = 1) ∧
    (cellOf r "VSORRES" = Value.null →
      (validate_vs t).countP (atRowRule i "SDTM_VS_004" (fun _ => true)) = 0) ∧
    (∀ c s2, castUtf8 (cellOf r "VSTESTCD") = some c → c ∈ VS_ALLOWED_TESTCD →
      castUtf8 (cellOf r "VSORRES") = some s2 →
      parseFloatStr (replaceComma s2) = none →
      (validate_vs t).countP (atRowRule i "SDTM_VS_004" (fun _ => true)) = 1) := by
  have heq := validate_vs_eq hmiss
  have h3 : ∀ q, (validate_vs t).countP (atRowRule i "SDTM_VS_003" q) =
      (rowFindings vsRule3Row t.rows).countP (atRowRule i "SDTM_VS_003" q) := by
    intro q
    rw [heq]
    simp only [List.countP_append]
    rw [countP_atRowRule_ne (rowFindings_ruleId vsRule1Row_ruleId) (by decide),
        countP_atRowRule_ne (rowFindings_ruleId vsRule2Row_ruleId) (by decide),
        countP_atRowRule_ne (rowFindings_ruleId vsRule4Row_ruleId) (by decide)]
    have h5 : (if t.hasCol "VSORRESU" then rowFindings vsRule5Row t.rows
        else [vsAdvisory]).countP (atRowRule i "SDTM_VS_003" q) = 0 := by
      cases t.hasCol "VSORRESU"
      · simpa using @countP_atRowRule_neg vsAdvisory rfl i "SDTM_VS_003" q
      · simpa using countP_atRowRule_ne (rowFindings_ruleId vsRule5Row_ruleId)
          (by decide) i q
    rw [h5]
    omega
  have h4 : ∀ q, (validate_vs t).countP (atRowRule i "SDTM_VS_004" q) =
      (rowFindings vsRule4Row t.rows).countP (atRowRule i "SDTM_VS_004" q) := by
    intro q
    rw [heq]
    simp only [List.countP_append]
    rw [countP_atRowRule_ne (rowFindings_ruleId vsRule1Row_ruleId) (by decide),
        countP_atRowRule_ne (rowFindings_ruleId vsRule2Row_ruleId) (by decide),
        countP_atRowRule_ne (rowFindings_ruleId vsRule3Row_ruleId) (by decide)]
    have h5 : (if t.hasCol "VSORRESU" then rowFindings vsRule5Row t.rows
        else [vsAdvisory]).countP (atRowRule i "SDTM_VS_004" q) = 0 := by
      cases t.hasCol "VSORRESU"
      · simpa using @countP_atRowRule_neg vsAdvisory rfl i "SDTM_VS_004" q
      · simpa using countP_atRowRule_ne (rowFindings_ruleId vsRule5Row_ruleId)
          (by decide) i q
    rw [h5]
    omega
  refine ⟨?_, ?_, ?_, ?_⟩
  · intro hnull
    rw [h3]
    unfold atRowRule
    rw [countP_rowFindings _ _ _ _ _ hr]
    simp [vsRule3Row, hnull, Value.isNotNull]
  · intro hnn hpf
    rw [h3]
    unfold atRowRule
    rw [countP_rowFindings _ _ _ _ _ hr]
    simp [vsRule3Row, hnn, hpf]
  · intro hnull
    rw [h4]
    unfold atRowRule
    rw [countP_rowFindings _ _ _ _ _ hr]
    simp [vsRule4Row, hnull, Value.isNotNull]
  · intro c s2 hc hcmem hores hpf
    rw [h4]
    unfold atRowRule
    rw [countP_rowFindings _ _ _ _ _ hr]
    have hnn := isNotNull_of_castUtf8 hores
    simp [vsRule4Row, hc, hores, hpf, hnn, contains_eq_true_of_mem hcmem, hcmem]

/-- Witness for C5 on a table with a null date row and a row carrying a
wrong-separator date and a non-numeric result. -/
theorem claim5_witness :
    (validate_vs vsFmtW).countP (atRowRule 0 "SDTM_VS_003" (fun _ => true)) = 0 ∧
    (validate_vs vsFmtW).countP (atRowRule 1 "SDTM_VS_003" (fun _ => true)) = 1 ∧
    (validate_vs vsFmtW).countP (atRowRule 1 "SDTM_VS_004" (fun _ => true)) = 1 := by
  have h0 := claim5 vsFmtW 0
    [("USUBJID", Value.str "S1"), ("VSTESTCD", Value.str "HR"),
     ("VSORRES", Value.str "70"), ("VSDTC", Value.null)] rfl rfl
  have h1 := claim5 vsFmtW 1
    [("USUBJID", Value.str "S1"), ("VSTESTCD", Value.str "HR"),
     ("VSORRES", Value.str "abc"), ("VSDTC", Value.str "2024/01/01")] rfl rfl
  exact ⟨h0.1 rfl, h1.2.1 rfl (by decide),
    h1.2.2.2 "HR" "abc" rfl (by decide) rfl (by decide)⟩

/-! ### C9: unit consistency and the skip advisory -/

/-- C9: with the mandatory VS columns present, an absent VSORRESU column
makes validate_vs emit exactly one SDTM_VS_005 finding, the LOW
dataset-level advisory (row_index -1); with VSORRESU present, a row
whose test code has an allowed unit list and whose non-null unit is not
in that list yields exactly one MED SDTM_VS_005 finding at that row. -/
theorem claim9 (t : DataFrame) (hmiss : missingCols t VS_REQUIRED = []) :
    (t.hasCol "VSORRESU" = false →
      (validate_vs t).countP (fun f => f.rule_id == "SDTM_VS_005") = 1 ∧
      ∀ f ∈ validate_vs t, f.rule_id = "SDTM_VS_005" →
        f = vsAdvisory ∧ f.severity = "LOW" ∧ f.row_index = -1) ∧
    (t.hasCol "VSORRESU" = true →
      ∀ (i : Nat) (r : Row) (c : String) (allowed : List String) (u : String),
        t.rows[i]? = some r →
        castUtf8 (cellOf r "VSTESTCD") = some c →
        (c, allowed) ∈ VS_UNITS_BY_TESTCD →
        castUtf8 (cellOf r "VSORRESU") = some u →
        u ∉ allowed →
        (validate_vs t).countP
          (atRowRule i "SDTM_VS_005" (fun f => f.severity == "MED")) = 1) := by
  have heq := validate_vs_eq hmiss
  constructor
  · intro habs
    rw [heq, habs]
    constructor
    · simp only [List.countP_append, if_neg Bool.false_ne_true]
      rw [countP_ruleId_ne (rowFindings_ruleId vsRule1Row_ruleId) (by decide),
          countP_ruleId_ne (rowFindings_ruleId vsRule2Row_ruleId) (by decide),
          countP_ruleId_ne (rowFindings_ruleId vsRule3Row_ruleId) (by decide),
          countP_ruleId_ne (rowFindings_ruleId vsRule4Row_ruleId) (by decide)]
      rfl
    · intro f hf hid
      simp only [if_neg Bool.false_ne_true] at hf
      rcases List.mem_append.mp hf with hf1 | hf2
      · rcases List.mem_append.mp hf1 with hf3 | hf4
        · rcases List.mem_append.mp hf3 with hf5 | hf6
          · rcases List.mem_append.mp hf5 with hf7 | hf8
            · exact absurd (rowFindings_ruleId vsRule1Row_ruleId f hf7 ▸ hid) (by decide)
            · exact absurd (rowFindings_ruleId vsRule2Row_ruleId f hf8 ▸ hid) (by decide)
          · exact absurd (rowFindings_ruleId vsRule3Row_ruleId f hf6 ▸ hid) (by decide)
        · exact absurd (rowFindings_ruleId vsRule4Row_ruleId f hf4 ▸ hid) (by decide)
      · have : f = vsAdvisory := by simpa using hf2
        subst this
        exact ⟨rfl, rfl, rfl⟩
  · intro hpres i r c allowed u hr hc hcmem hu hnot
    rw [heq, hpres]
    simp only [List.countP_append, eq_self_iff_true, if_true]
    rw [countP_atRowRule_ne (rowFindings_ruleId vsRule1Row_ruleId) (by decide),
        countP_atRowRule_ne (rowFindings_ruleId vsRule2Row_ruleId) (by decide),
        countP_atRowRule_ne (rowFindings_ruleId vsRule3Row_ruleId) (by decide),
        countP_atRowRule_ne (rowFindings_ruleId vsRule4Row_ruleId) (by decide)]
    simp only [Nat.zero_add]
    unfold atRowRule
    rw [countP_rowFindings _ _ _ _ _ hr]
    have hmask : vsRule5Mask r = true := by
      refine List.any_eq_true.mpr ⟨(c, allowed), hcmem, ?_⟩
      simp [hc, hu, contains_eq_false_of_not_mem hnot, hnot]
    simp [vsRule5Row, hmask]

/-- Witness for C9: the absent-unit-column advisory on one table, and a
bpm test code carrying the unit mmHg on another. -/
theorem claim9_witness :
    (validate_vs vsNoUnitT).countP (fun f => f.rule_id == "SDTM_VS_005") = 1 ∧
    (validate_vs vsUnitT).countP
      (atRowRule 0 "SDTM_VS_005" (fun f => f.severity == "MED")) = 1 := by
  refine ⟨((claim9 vsNoUnitT rfl).1 rfl).1, ?_⟩
  exact (claim9 vsUnitT rfl).2 rfl 0
    [("USUBJID", Value.str "S1"), ("VSTESTCD", Value.str "HR"),
     ("VSORRES", Value.str "70"), ("VSDTC", Value.str "2024-01-01"),
     ("VSORRESU", Value.str "mmHg")] "HR" ["bpm"] "mmHg" rfl rfl (by decide) rfl (by decide)

/-! ### C6: skip advisories exist only in validate_vs -/

/-- C6 counterexample: validate_ae on a clean table whose optional
columns AEENDTC, AESER and AESEV are all absent returns no finding at
all, in particular no LOW dataset-level advisory for any of the three
skipped optional rules, contradicting the claim that every skipped
optional check emits one advisory. -/
theorem claim6_counterexample :
    validate_ae aeCleanT = [] ∧
    aeCleanT.hasCol "AEENDTC" = false ∧ aeCleanT.hasCol "AESER" = false ∧
    aeCleanT.hasCol "AESEV" = false := by
  exact ⟨by decide, rfl, rfl, rfl⟩

/-- C6 (amended): only validate_vs emits a skip advisory — with the
mandatory VS columns present and VSORRESU absent it emits exactly one
dataset-level finding, the LOW SDTM_VS_005 advisory; validate_ae,
validate_cm and validate_dm, with their mandatory columns present, emit
only row-level findings (row_index at least 0), so their optional rules
are skipped silently when the optional columns are absent. -/
theorem claim6 :
    (∀ t : DataFrame, missingCols t VS_REQUIRED = [] → t.hasCol "VSORRESU" = false →
      (validate_vs t).countP (fun f => f.row_index == (-1 : Int)) = 1 ∧
      ∀ f ∈ validate_vs t, f.row_index = -1 →
        f.rule_id = "SDTM_VS_005" ∧ f.severity = "LOW") ∧
    (∀ t : DataFrame, missingCols t AE_REQUIRED = [] →
      ∀ f ∈ validate_ae t, 0 ≤ f.row_index) ∧
    (∀ t : DataFrame, missingCols t CM_REQUIRED = [] →
      ∀ f ∈ validate_cm t, 0 ≤ f.row_index) ∧
    (∀ t : DataFrame, missingCols t DM_REQUIRED = [] →
      ∀ f ∈ validate_dm t, 0 ≤ f.row_index) := by
  refine ⟨?_, ?_, ?_, ?_⟩
  · intro t hmiss habs
    have heq := validate_vs_eq hmiss
    rw [heq, habs]
    simp only [if_neg Bool.false_ne_true]
    constructor
    · simp only [List.countP_append]
      rw [countP_negIdx_zero (rowFindings_nonneg), countP_negIdx_zero (rowFindings_nonneg),
          countP_negIdx_zero (rowFindings_nonneg), countP_negIdx_zero (rowFindings_nonneg)]
      rfl
    · intro f hf hneg
      rcases List.mem_append.mp hf with hf1 | hf2
      · rcases List.mem_append.mp hf1 with hf3 | hf4
        · rcases List.mem_append.mp hf3 with hf5 | hf6
          · rcases List.mem_append.mp hf5 with hf7 | hf8
            · have := rowFindings_nonneg f hf7; omega
            · have := rowFindings_nonneg f hf8; omega
          · have := rowFindings_nonneg f hf6; omega
        · have := rowFindings_nonneg f hf4; omega
      · have : f = vsAdvisory := by simpa using hf2
        subst this
        exact ⟨rfl, rfl⟩
  · intro t hmiss f hf
    rw [validate_ae_eq hmiss] at hf
    rcases List.mem_append.mp hf with hf1 | hf2
    · rcases List.mem_append.mp hf1 with hf3 | hf4
      · rcases List.mem_append.mp hf3 with hf5 | hf6
        · rcases List.mem_append.mp hf5 with hf7 | hf8
          · rcases List.mem_append.mp hf7 with hf9 | hf10
            · exact rowFindings_nonneg f hf9
            · exact rowFindings_nonneg f hf10
          · exact rowFindings_nonneg f (mem_if_rowFindings hf8)
        · exact rowFindings_nonneg f (mem_if_rowFindings hf6)
      · exact rowFindings_nonneg f (mem_if_rowFindings hf4)
    · exact rowFindings_nonneg f (mem_if_rowFindings hf2)
  · intro t hmiss f hf
    rw [validate_cm_eq hmiss] at hf
    rcases List.mem_append.mp hf with hf1 | hf2
    · rcases List.mem_append.mp hf1 with hf3 | hf4
      · rcases List.mem_append.mp hf3 with hf5 | hf6
        · exact rowFindings_nonneg f hf5
        · exact rowFindings_nonneg f hf6
      · exact rowFindings_nonneg f (mem_if_rowFindings hf4)
    · exact rowFindings_nonneg f (mem_if_rowFindings hf2)
  · intro t hmiss f hf
    rw [validate_dm_eq hmiss] at hf
    rcases List.mem_append.mp hf with hf1 | hf2
    · rcases List.mem_append.mp hf1 with hf3 | hf4
      · rcases List.mem_append.mp hf3 with hf5 | hf6
        · rcases List.mem_append.mp hf5 with hf7 | hf8
          · rcases List.mem_append.mp hf7 with hf9 | hf10
            · rcases List.mem_append.mp hf9 with hf11 | hf12
              · rcases List.mem_append.mp hf11 with hf13 | hf14
                · exact rowFindings_nonneg f hf13
                · exact rowFindings_nonneg f hf14
              · exact rowFindings_nonneg f (mem_if_rowFindings hf12)
            · exact rowFindings_nonneg f (mem_if_rowFindings hf10)
          · exact rowFindings_nonneg f (mem_if_rowFindings hf8)
        · exact rowFindings_nonneg f (mem_if_rowFindings hf6)
      · exact rowFindings_nonneg f (mem_if_rowFindings hf4)
    · exact rowFindings_nonneg f (mem_if_rowFindings hf2)

/-- Witness for C6: the VS advisory fires on a unit-less table while a
clean AE table with absent optional columns yields only row-level
findings (here: none at all). -/
theorem claim6_witness :
    (validate_vs vsNoUnitT).countP (fun f => f.row_index == (-1 : Int)) = 1 ∧
    (∀ f ∈ validate_ae aeCleanT, 0 ≤ f.row_index) ∧
    (∀ f ∈ validate_cm cmCleanT, 0 ≤ f.row_index) ∧
    (∀ f ∈ validate_dm dmCleanT, 0 ≤ f.row_index) := by
  exact ⟨(claim6.1 vsNoUnitT rfl rfl).1, claim6.2.1 aeCleanT rfl,
    claim6.2.2.1 cmCleanT rfl, claim6.2.2.2 dmCleanT rfl⟩

/-! ### C7: uniqueness in the prototype DM validator -/

theorem srRule1Row_ruleId : ∀ r f0, SdtmRules.srRule1Row r = some f0 →
    f0.rule_id = "SDTM_DM_001" := by
  intro r f0 h
  simp only [SdtmRules.srRule1Row] at h
  split at h
  · rw [← Option.some.inj h]
  · simp at h

theorem srRule3Row_ruleId : ∀ r f0, SdtmRules.srRule3Row r = some f0 →
    f0.rule_id = "SDTM_DM_003" := by
  intro r f0 h
  simp only [SdtmRules.srRule3Row] at h
  split at h
  · rw [← Option.some.inj h]
  · simp at h

theorem srRule4Row_ruleId : ∀ r f0, SdtmRules.srRule4Row r = some f0 →
    f0.rule_id = "SDTM_DM_004" := by
  intro r f0 h
  simp only [SdtmRules.srRule4Row] at h
  split at h
  · simp at h
  · split at h
    · rw [← Option.some.inj h]
    · simp at h

theorem srRule5Row_ruleId : ∀ r f0, SdtmRules.srRule5Row r = some f0 →
    f0.rule_id = "SDTM_DM_005" := by
  intro r f0 h
  simp only [SdtmRules.srRule5Row] at h
  split at h
  · simp at h
  · split at h
    · rw [← Option.some.inj h]
    · simp at h

theorem srRule6Row_ruleId : ∀ r f0, SdtmRules.srRule6Row r = some f0 →
    f0.rule_id = "SDTM_DM_006" := by
  intro r f0 h
  simp only [SdtmRules.srRule6Row] at h
  split at h
  · simp at h
  · split at h
    · rw [← Option.some.inj h]
    · simp at h

/-- C7: in sdtm_rules.validate_dm on a table with USUBJID present, the
SDTM_DM_002 uniqueness rule fires at a row exactly when its string-cast
id is non-null and shared by at least two rows — so every member of a
duplicate group is flagged and null ids are untouched — each such
finding carries severity HIGH, and on the ids A,A,B,B,null exactly the
four non-null rows are flagged. -/
theorem claim7 (t : DataFrame) (hU : t.hasCol "USUBJID" = true) :
    (∀ (i : Nat) (r : Row), t.rows[i]? = some r →
      ((∃ s, castUtf8 (cellOf r "USUBJID") = some s ∧
          2 ≤ t.rows.countP (fun r2 => castUtf8 (cellOf r2 "USUBJID") == some s)) ↔
        (SdtmRules.validate_dm t).countP (atRowRuleSR i "SDTM_DM_002" (fun _ => true)) = 1) ∧
      (cellOf r "USUBJID" = Value.null →
        (SdtmRules.validate_dm t).countP (atRowRuleSR i "SDTM_DM_002" (fun _ => true)) = 0)) ∧
    (∀ f ∈ SdtmRules.validate_dm t, f.rule_id = "SDTM_DM_002" → f.severity = "HIGH") ∧
    (((SdtmRules.validate_dm dmDupT).filter (fun f => f.rule_id == "SDTM_DM_002")).map
      (fun f => f.row_index) = [0, 1, 2, 3]) := by
  have hkill : ∀ (i : Nat) (q : FindingSR → Bool),
      (SdtmRules.validate_dm t).countP (atRowRuleSR i "SDTM_DM_002" q) =
        (rowFindingsSR (SdtmRules.srRule2Row t.rows) t.rows).countP
          (atRowRuleSR i "SDTM_DM_002" q) := by
    intro i q
    simp only [SdtmRules.validate_dm, hU, eq_self_iff_true, if_true]
    simp only [List.countP_append]
    rw [countP_atRowRuleSR_ne (rowFindingsSR_ruleId srRule1Row_ruleId) (by decide),
        countP_atRowRuleSR_if_ne (rowFindingsSR_ruleId srRule3Row_ruleId) (by decide),
        countP_atRowRuleSR_if_ne (rowFindingsSR_ruleId srRule4Row_ruleId) (by decide),
        countP_atRowRuleSR_if_ne (rowFindingsSR_ruleId srRule5Row_ruleId) (by decide),
        countP_atRowRuleSR_if_ne (rowFindingsSR_ruleId srRule6Row_ruleId) (by decide)]
    omega
  refine ⟨?_, ?_, by decide⟩
  · intro i r hr
    constructor
    · rw [hkill i (fun _ => true)]
      unfold atRowRuleSR
      rw [countP_rowFindingsSR _ _ _ _ _ hr]
      cases hc : castUtf8 (cellOf r "USUBJID") with
      | none => simp [SdtmRules.srRule2Row, hc]
      | some s =>
        by_cases hd : 2 ≤ SdtmRules.srDupCount t.rows s
        · simp only [SdtmRules.srRule2Row, hc, if_pos hd]
          constructor
          · intro _
            simp
          · intro _
            exact ⟨s, rfl, hd⟩
        · simp only [SdtmRules.srRule2Row, hc, if_neg hd]
          constructor
          · rintro ⟨s2, hs2, hd2⟩
            obtain rfl : s = s2 := Option.some.inj hs2
            exact absurd hd2 hd
          · intro h0
            simp at h0
    · intro hnull
      rw [hkill i (fun _ => true)]
      unfold atRowRuleSR
      rw [countP_rowFindingsSR _ _ _ _ _ hr]
      simp [SdtmRules.srRule2Row, hnull, castUtf8]
  · intro f hf hid
    simp only [SdtmRules.validate_dm, hU, eq_self_iff_true, if_true] at hf
    rcases List.mem_append.mp hf with hf1 | hf2
    · rcases List.mem_append.mp hf1 with hf3 | hf4
      · rcases List.mem_append.mp hf3 with hf5 | hf6
        · rcases List.mem_append.mp hf5 with hf7 | hf8
          · rcases List.mem_append.mp hf7 with hf9 | hf10
            · exact absurd (rowFindingsSR_ruleId srRule1Row_ruleId f hf9 ▸ hid) (by decide)
            · obtain ⟨j, rj, f0, _, hf0, rfl⟩ := mem_rowFindingsSR hf10
              simp only [SdtmRules.srRule2Row] at hf0
              split at hf0
              · simp at hf0
              · split at hf0
                · rw [← Option.some.inj hf0]
                · simp at hf0
          · exact absurd (rowFindingsSR_ruleId srRule3Row_ruleId f
              (mem_if_rowFindingsSR hf8) ▸ hid) (by decide)
        · exact absurd (rowFindingsSR_ruleId srRule4Row_ruleId f
            (mem_if_rowFindingsSR hf6) ▸ hid) (by decide)
      · exact absurd (rowFindingsSR_ruleId srRule5Row_ruleId f
          (mem_if_rowFindingsSR hf4) ▸ hid) (by decide)
    · exact absurd (rowFindingsSR_ruleId srRule6Row_ruleId f
        (mem_if_rowFindingsSR hf2) ▸ hid) (by decide)

/-- Witness for C7: row 0 of the A,A,B,B,null table is flagged by the
uniqueness rule exactly once. -/
theorem claim7_witness :
    (SdtmRules.validate_dm dmDupT).countP
      (atRowRuleSR 0 "SDTM_DM_002" (fun _ => true)) = 1 := by
  have h := ((claim7 dmDupT rfl).1 0 [("USUBJID", Value.str "A")] rfl).1
  exact h.mp ⟨"A", rfl, by decide⟩

/-! ### C8: interval ordering rules -/

/-- C8: in each of validate_ae, validate_cm and validate_dm, when start
and end dates are both present and parseable and start is strictly
after end, the interval rule (SDTM_AE_004 / SDTM_CM_004 / SDTM_DM_008)
produces exactly one HIGH finding at that row with evidence of the form
left > right built from the raw values; start equal to end produces
zero findings from that rule. -/
theorem claim8 :
    (∀ (t : DataFrame) (i : Nat) (r : Row) (a b : Date),
      missingCols t AE_REQUIRED = [] → t.hasCol "AEENDTC" = true → t.rows[i]? = some r →
      parseIsoDate (cellOf r "AESTDTC") = some a →
      parseIsoDate (cellOf r "AEENDTC") = some b →
      (b.key < a.key →
        (validate_ae t).countP (atRowRule i "SDTM_AE_004" (fun f =>
          f.severity == "HIGH" && f.evidence == some (((castUtf8 (cellOf r "AESTDTC")).getD "")
            ++ " > " ++ ((castUtf8 (cellOf r "AEENDTC")).getD "")))) = 1 ∧
        (validate_ae t).countP (atRowRule i "SDTM_AE_004" (fun _ => true)) = 1) ∧
      (a = b →
        (validate_ae t).countP (atRowRule i "SDTM_AE_004" (fun _ => true)) = 0)) ∧
    (∀ (t : DataFrame) (i : Nat) (r : Row) (a b : Date),
      missingCols t CM_REQUIRED = [] → t.hasCol "CMENDTC" = true → t.rows[i]? = some r →
      parseIsoDate (cellOf r "CMSTDTC") = some a →
      parseIsoDate (cellOf r "CMENDTC") = some b →
      (b.key < a.key →
        (validate_cm t).countP (atRowRule i "SDTM_CM_004" (fun f =>
          f.severity == "HIGH" && f.evidence == some (((castUtf8 (cellOf r "CMSTDTC")).getD "")
            ++ " > " ++ ((castUtf8 (cellOf r "CMENDTC")).getD "")))) = 1 ∧
        (validate_cm t).countP (atRowRule i "SDTM_CM_004" (fun _ => true)) = 1) ∧
      (a = b →
        (validate_cm t).countP (atRowRule i "SDTM_CM_004" (fun _ => true)) = 0)) ∧
    (∀ (t : DataFrame) (i : Nat) (r : Row) (a b : Date),
      missingCols t DM_REQUIRED = [] → t.hasCol "RFSTDTC" = true →
      t.hasCol "RFENDTC" = true → t.rows[i]? = some r →
      parseIsoDate (cellOf r "RFSTDTC") = some a →
      parseIsoDate (cellOf r "RFENDTC") = some b →
      (b.key < a.key →
        (validate_dm t).countP (atRowRule i "SDTM_DM_008" (fun f =>
          f.severity == "HIGH" && f.evidence == some (((castUtf8 (cellOf r "RFSTDTC")).getD "")
            ++ " > " ++ ((castUtf8 (cellOf r "RFENDTC")).getD "")))) = 1 ∧
        (validate_dm t).countP (atRowRule i "SDTM_DM_008" (fun _ => true)) = 1) ∧
      (a = b →
        (validate_dm t).countP (atRowRule i "SDTM_DM_008" (fun _ => true)) = 0)) := by
  refine ⟨?_, ?_, ?_⟩
  · intro t i r a b hmiss hEnd hr hpa hpb
    have hcount : ∀ q, (validate_ae t).countP (atRowRule i "SDTM_AE_004" q) =
        (rowFindings aeRule4Row t.rows).countP (atRowRule i "SDTM_AE_004" q) := by
      intro q
      rw [validate_ae_eq hmiss]
      simp only [hEnd, eq_self_iff_true, if_true]
      simp only [List.countP_append]
      rw [countP_atRowRule_ne (rowFindings_ruleId aeRule1Row_ruleId) (by decide),
          countP_atRowRule_ne (rowFindings_ruleId aeRule2Row_ruleId) (by decide),
          countP_atRowRule_ne (rowFindings_ruleId aeRule3Row_ruleId) (by decide),
          countP_atRowRule_if_ne (rowFindings_ruleId aeRule5Row_ruleId) (by decide),
          countP_atRowRule_if_ne (rowFindings_ruleId aeRule6Row_ruleId) (by decide)]
      omega
    obtain ⟨t1, ht1, _⟩ := parseIsoDate_castUtf8 hpa
    obtain ⟨t2, ht2, _⟩ := parseIsoDate_castUtf8 hpb
    constructor
    · intro horder
      constructor
      · rw [hcount]
        unfold atRowRule
        rw [countP_rowFindings _ _ _ _ _ hr]
        simp [aeRule4Row, hpa, hpb, horder, cmpEvidence, ht1, ht2]
      · rw [hcount]
        unfold atRowRule
        rw [countP_rowFindings _ _ _ _ _ hr]
        simp [aeRule4Row, hpa, hpb, horder]
    · intro heqd
      subst heqd
      rw [hcount]
      unfold atRowRule
      rw [countP_rowFindings _ _ _ _ _ hr]
      simp [aeRule4Row, hpa, hpb, Nat.lt_irrefl]
  · intro t i r a b hmiss hEnd hr hpa hpb
    have hcount : ∀ q, (validate_cm t).countP (atRowRule i "SDTM_CM_004" q) =
        (rowFindings cmRule4Row t.rows).countP (atRowRule i "SDTM_CM_004" q) := by
      intro q
      rw [validate_cm_eq hmiss]
      simp only [hEnd, eq_self_iff_true, if_true]
      simp only [List.countP_append]
      rw [countP_atRowRule_ne (rowFindings_ruleId cmRule1Row_ruleId) (by decide),
          countP_atRowRule_ne (rowFindings_ruleId cmRule2Row_ruleId) (by decide),
          countP_atRowRule_ne (rowFindings_ruleId cmRule3Row_ruleId) (by decide)]
      omega
    obtain ⟨t1, ht1, _⟩ := parseIsoDate_castUtf8 hpa
    obtain ⟨t2, ht2, _⟩ := parseIsoDate_castUtf8 hpb
    constructor
    · intro horder
      constructor
      · rw [hcount]
        unfold atRowRule
        rw [countP_rowFindings _ _ _ _ _ hr]
        simp [cmRule4Row, hpa, hpb, horder, cmpEvidence, ht1, ht2]
      · rw [hcount]
        unfold atRowRule
        rw [countP_rowFindings _ _ _ _ _ hr]
        simp [cmRule4Row, hpa, hpb, horder]
    · intro heqd
      subst heqd
      rw [hcount]
      unfold atRowRule
      rw [countP_rowFindings _ _ _ _ _ hr]
      simp [cmRule4Row, hpa, hpb, Nat.lt_irrefl]
  · intro t i r a b hmiss h1 h2 hr hpa hpb
    have hcount : ∀ q, (validate_dm t).countP (atRowRule i "SDTM_DM_008" q) =
        (rowFindings dmRule8Row t.rows).countP (atRowRule i "SDTM_DM_008" q) := by
      intro q
      rw [validate_dm_eq hmiss]
      simp only [h1, h2, Bool.and_self, eq_self_iff_true, if_true]
      simp only [List.countP_append]
      rw [countP_atRowRule_ne (rowFindings_ruleId dmRule1Row_ruleId) (by decide),
          countP_atRowRule_ne (rowFindings_ruleId (dmRule2Row_ruleId t.rows)) (by decide),
          countP_atRowRule_if_ne (rowFindings_ruleId dmRule3Row_ruleId) (by decide),
          countP_atRowRule_if_ne (rowFindings_ruleId dmRule4Row_ruleId) (by decide),
          countP_atRowRule_if_ne (rowFindings_ruleId dmRule5Row_ruleId) (by decide),
          countP_atRowRule_ne (rowFindings_ruleId dmRule6Row_ruleId) (by decide),
          countP_atRowRule_ne (rowFindings_ruleId dmRule7Row_ruleId) (by decide)]
      omega
    obtain ⟨t1, ht1, _⟩ := parseIsoDate_castUtf8 hpa
    obtain ⟨t2, ht2, _⟩ := parseIsoDate_castUtf8 hpb
    constructor
    · intro horder
      constructor
      · rw [hcount]
        unfold atRowRule
        rw [countP_rowFindings _ _ _ _ _ hr]
        simp [dmRule8Row, hpa, hpb, horder, cmpEvidence, ht1, ht2]
      · rw [hcount]
        unfold atRowRule
        rw [countP_rowFindings _ _ _ _ _ hr]
        simp [dmRule8Row, hpa, hpb, horder]
    · intro heqd
      subst heqd
      rw [hcount]
      unfold atRowRule
      rw [countP_rowFindings _ _ _ _ _ hr]
      simp [dmRule8Row, hpa, hpb, Nat.lt_irrefl]

/-- Witness for C8: start 2024-02-01 against end 2024-01-01 yields one
finding per domain rule; equal dates yield none. -/
theorem claim8_witness :
    (validate_ae aeOrdT).countP (atRowRule 0 "SDTM_AE_004" (fun _ => true)) = 1 ∧
    (validate_ae aeOrdT).countP (atRowRule 1 "SDTM_AE_004" (fun _ => true)) = 0 ∧
    (validate_cm cmOrdT).countP (atRowRule 0 "SDTM_CM_004" (fun _ => true)) = 1 ∧
    (validate_dm dmOrdT).countP (atRowRule 0 "SDTM_DM_008" (fun _ => true)) = 1 := by
  refine ⟨?_, ?_, ?_, ?_⟩
  · exact ((claim8.1 aeOrdT 0
      [("USUBJID", Value.str "S1"), ("AETERM", Value.str "Nausea"),
       ("AESTDTC", Value.str "2024-02-01"), ("AEENDTC", Value.str "2024-01-01")]
      ⟨2024, 2, 1⟩ ⟨2024, 1, 1⟩ rfl rfl rfl (by decide) (by decide)).1 (by decide)).2
  · exact (claim8.1 aeOrdT 1
      [("USUBJID", Value.str "S1"), ("AETERM", Value.str "Nausea"),
       ("AESTDTC", Value.str "2024-02-01"), ("AEENDTC", Value.str "2024-02-01")]
      ⟨2024, 2, 1⟩ ⟨2024, 2, 1⟩ rfl rfl rfl (by decide) (by decide)).2 rfl
  · exact ((claim8.2.1 cmOrdT 0
      [("USUBJID", Value.str "S1"), ("CMTRT", Value.str "Aspirin"),
       ("CMSTDTC", Value.str "2024-02-01"), ("CMENDTC", Value.str "2024-01-01")]
      ⟨2024, 2, 1⟩ ⟨2024, 1, 1⟩ rfl rfl rfl (by decide) (by decide)).1 (by decide)).2
  · exact ((claim8.2.2 dmOrdT 0
      [("USUBJID", Value.str "S1"), ("STUDYID", Value.str "ST01"),
       ("RFSTDTC", Value.str "2024-02-01"), ("RFENDTC", Value.str "2024-01-01")]
      ⟨2024, 2, 1⟩ ⟨2024, 1, 1⟩ rfl rfl rfl rfl (by decide) (by decide)).1 (by decide)).2

end Edc
